import Mathlib

/-!
# ApogeeNetworking/sandvine: database triage and vacuum procedures

A shallow embedding of `sandvine.go`.  Go strings are lists of characters, the
remote session (`universal.Device`) is a deterministic responder whose answer
may depend on every command sent before, and a call either returns, panics
(index out of range) or runs out of fuel (`ToggleDb` re-invokes itself without
bound).
-/

namespace Sandvine

/-- Go `string`, as the list of its characters. -/
abbrev Str := List Char

/-- Go `error`: `none` is `nil`, `some msg` an error value. -/
abbrev GoError := Option Str

/-! ## The session collaborator -/

/-- The remote device behind `s.Client`: what `SendCmd` answers to a command,
given the commands sent so far (oldest first). -/
structure Device where
  reply : List Str → Str → Str × GoError

/-- Outcome of a call; every outcome carries the commands sent so far. -/
inductive Res (α : Type) where
  | ret (a : α) (log : List Str)
  | panic (log : List Str)
  | timeout (log : List Str)
deriving DecidableEq, Repr

/-- Commands sent when the call ended. -/
def Res.log {α : Type} : Res α → List Str
  | .ret _ l => l
  | .panic l => l
  | .timeout l => l

/-- A method of `Service`: runs against the device from a command log. -/
def Prog (α : Type) : Type := Device → List Str → Res α

/-- Sequencing: a panic or a timeout ends the whole call. -/
def Prog.bind {α β : Type} (m : Prog α) (f : α → Prog β) : Prog β :=
  fun dev log =>
    match m dev log with
    | .ret a l => f a dev l
    | .panic l => .panic l
    | .timeout l => .timeout l

instance : Monad Prog where
  pure a := fun _ log => .ret a log
  bind := Prog.bind

/-- Run-time panic: index out of range. -/
def goPanic {α : Type} : Prog α := fun _ log => .panic log

/-- Fuel exhausted: the call has not returned yet. -/
def outOfFuel {α : Type} : Prog α := fun _ log => .timeout log

/-- Model of `s.Client.SendCmd(cmd)`: one request/response exchange. -/
def SendCmd (cmd : Str) : Prog (Str × GoError) :=
  fun dev log => .ret (dev.reply log cmd) (log ++ [cmd])

/-- Slice indexing `xs[i]`: panics when `i` is out of range. -/
def index {α : Type} (xs : List α) (i : Nat) : Prog α :=
  match xs[i]? with
  | some x => pure x
  | none => goPanic

/-! ## Library functions used by the source -/

/-- Model of `strings.Contains(s, substr)`. -/
def contains : Str → Str → Bool
  | [], sub => sub.isEmpty
  | c :: s, sub => sub.isPrefixOf (c :: s) || contains s sub

/-- Scanner behind `replace`: `skip` characters of a matched `old` remain to
be dropped. -/
def replaceGo (old new : Str) : Nat → Str → Str
  | _, [] => []
  | k + 1, _ :: s => replaceGo old new k s
  | 0, c :: s =>
    if old ≠ [] ∧ old.isPrefixOf (c :: s) then new ++ replaceGo old new (old.length - 1) s
    else c :: replaceGo old new 0 s

/-- Model of `strings.ReplaceAll(s, old, new)` for a non-empty `old`, as at
every call site. -/
def replace (s old new : Str) : Str := replaceGo old new 0 s

/-- Scanner behind `split`: `cur` is the current piece, reversed. -/
def splitGo (sep : Str) : Nat → Str → Str → List Str
  | _, cur, [] => [cur.reverse]
  | k + 1, cur, _ :: s => splitGo sep k cur s
  | 0, cur, c :: s =>
    if sep ≠ [] ∧ sep.isPrefixOf (c :: s) then cur.reverse :: splitGo sep (sep.length - 1) [] s
    else splitGo sep 0 (c :: cur) s

/-- Model of `strings.Split(s, sep)` for a non-empty `sep`, as at every call
site. -/
def split (s sep : Str) : List Str := splitGo sep 0 [] s

/-- The class `\s` of Go regular expressions: tab, newline, form feed,
carriage return, space. -/
def isSpace (c : Char) : Bool :=
  c == Char.ofNat 9 || c == Char.ofNat 10 || c == Char.ofNat 12 || c == Char.ofNat 13 || c == ' '

/-- Newline: the one character `.` does not match. -/
def isNewline (c : Char) : Bool := c == Char.ofNat 10

/-- The pieces of the regular expressions the source compiles. -/
inductive Re where
  | chr (c : Char)
  | any
  | space
  | spaces
  | capNonSpaces
  | capRest
deriving DecidableEq, Repr

/-- Scanner behind `MustCompile`: `skip` characters of the piece just read
remain to be dropped. -/
def compileGo : Nat → Str → List Re
  | _, [] => []
  | k + 1, _ :: r => compileGo k r
  | 0, c :: r =>
    if "\\s+".toList.isPrefixOf (c :: r) then Re.spaces :: compileGo 2 r
    else if "\\s".toList.isPrefixOf (c :: r) then Re.space :: compileGo 1 r
    else if "(\\S+)".toList.isPrefixOf (c :: r) then Re.capNonSpaces :: compileGo 4 r
    else if "(.*)".toList.isPrefixOf (c :: r) then Re.capRest :: compileGo 3 r
    else if c = '.' then Re.any :: compileGo 0 r
    else Re.chr c :: compileGo 0 r

/-- Model of `regexp.MustCompile` on the syntax the source uses: `\s`, `\s+`,
`.`, the groups `(\S+)` and `(.*)`, and literal characters. -/
def MustCompile (pattern : String) : List Re := compileGo 0 pattern.toList

/-- Anchored match of a compiled expression at the start of `s`: the matched
text and the text of the capture group.  Repetitions are greedy; in the
expressions of the source a greedy repetition never has to give characters
back (`\s+` is followed by `:` or by `(.*)`, and each group ends the
expression). -/
def matchHere : List Re → Str → Option (Str × Str)
  | [], _ => some ([], [])
  | Re.chr a :: p, s =>
    match s with
    | c :: t => if c = a then (matchHere p t).map (fun r => (c :: r.1, r.2)) else none
    | [] => none
  | Re.any :: p, s =>
    match s with
    | c :: t => if isNewline c then none else (matchHere p t).map (fun r => (c :: r.1, r.2))
    | [] => none
  | Re.space :: p, s =>
    match s with
    | c :: t => if isSpace c then (matchHere p t).map (fun r => (c :: r.1, r.2)) else none
    | [] => none
  | Re.spaces :: p, s =>
    let ws := s.takeWhile isSpace
    if ws = [] then none
    else (matchHere p (s.dropWhile isSpace)).map (fun r => (ws ++ r.1, r.2))
  | Re.capNonSpaces :: p, s =>
    let w := s.takeWhile (fun c => !isSpace c)
    if w = [] then none
    else (matchHere p (s.dropWhile (fun c => !isSpace c))).map (fun r => (w ++ r.1, w))
  | Re.capRest :: p, s =>
    let w := s.takeWhile (fun c => !isNewline c)
    (matchHere p (s.dropWhile (fun c => !isNewline c))).map (fun r => (w ++ r.1, w))

/-- Model of `re.FindStringSubmatch(s)`: the leftmost match as
`[whole match, group 1]`, or the empty (nil) slice when nothing matches. -/
def FindStringSubmatch (re : List Re) : Str → List Str
  | [] =>
    match matchHere re [] with
    | some r => [r.1, r.2]
    | none => []
  | c :: s =>
    match matchHere re (c :: s) with
    | some r => [r.1, r.2]
    | none => FindStringSubmatch re s

/-- Scanner behind `ReplaceAllString`: `inRun` says the previous character
was whitespace. -/
def collapseGo : Bool → Str → Str
  | _, [] => []
  | inRun, c :: s =>
    if isSpace c then (if inRun then collapseGo true s else ' ' :: collapseGo true s)
    else c :: collapseGo false s

/-- Model of `regexp.MustCompile("\\s+").ReplaceAllString(t, " ")`: every
maximal run of whitespace becomes one space. -/
def ReplaceAllSpaces (t : Str) : Str := collapseGo false t

/-- The two failures of `strconv`. -/
inductive NumError where
  | badSyntax
  | outOfRange
deriving DecidableEq, Repr

/-- The loop of `strconv.ParseUint(s, 10, 64)`: `n` is the `uint64`
accumulator. -/
def ParseUintLoop : Nat → Str → Nat × Option NumError
  | n, [] => (n, none)
  | n, c :: s =>
    let d : Option Nat :=
      if '0'.toNat ≤ c.toNat ∧ c.toNat ≤ '9'.toNat then some (c.toNat - '0'.toNat)
      else if 'a'.toNat ≤ (c.toNat ||| 32) ∧ (c.toNat ||| 32) ≤ 'z'.toNat then
        some ((c.toNat ||| 32) - 'a'.toNat + 10)
      else none
    match d with
    | none => (0, some NumError.badSyntax)
    | some d =>
      if d ≥ 10 then (0, some NumError.badSyntax)
      else if n ≥ (2 ^ 64 - 1) / 10 + 1 then (2 ^ 64 - 1, some NumError.outOfRange)
      else
        let n10 := (n * 10) % 2 ^ 64
        let n1 := (n10 + d) % 2 ^ 64
        if n1 < n10 ∨ n1 > 2 ^ 64 - 1 then (2 ^ 64 - 1, some NumError.outOfRange)
        else ParseUintLoop n1 s

/-- Model of `strconv.ParseUint(s, 10, 64)`. -/
def ParseUint (s : Str) : Nat × Option NumError :=
  if s = [] then (0, some NumError.badSyntax) else ParseUintLoop 0 s

/-- Model of `strconv.ParseInt(s, 10, 64)`: the value and the error.  On a
range error the value is the nearest bound of `int64`, on a syntax error 0. -/
def ParseInt (s : Str) : Int × Option NumError :=
  match s with
  | [] => (0, some NumError.badSyntax)
  | c :: t =>
    let neg : Bool := c == '-'
    let body : Str := if c = '+' ∨ c = '-' then t else s
    let r := ParseUint body
    if r.2 = some NumError.badSyntax then (0, r.2)
    else if !neg && decide (r.1 ≥ 2 ^ 63) then (2 ^ 63 - 1, some NumError.outOfRange)
    else if neg && decide (r.1 > 2 ^ 63) then (-(2 ^ 63), some NumError.outOfRange)
    else (if neg then -(r.1 : Int) else (r.1 : Int), none)

/-! ## The command vocabulary -/

/-- The command table `SRPCmds`; the three `...Re` fields hold regular
expression sources. -/
structure SRPCmds where
  SvAdmDbStatus : Str
  SvAdmDbTransStatus : Str
  SvCLI : Str
  DbStatus : Str
  JbossServRe : String
  JbossServWrapperRe : String
  PgsqlServRe : String
  PgSvStat : Str
  PgSvSub : Str
  PgSvStatShort : Str
  PgSvSubShort : Str
  StartDb : Str
  StopDb : Str
  StartAppServ : Str
  StopAppServ : Str
  SwitchUser : Str
  SwitchUserPg : Str
  CntrlD : Str
  PgErr : Str
  Quit : Str

/-- The table as `init()` fills it. -/
def SrpCmds : SRPCmds where
  SvAdmDbStatus := "show service database status".toList
  SvAdmDbTransStatus := "show service database transaction-id status".toList
  SvCLI := "svcli".toList
  DbStatus := "show system services".toList
  JbossServRe := "JBoss\\sApplication\\sServer\\s+(.*)"
  JbossServWrapperRe := "JBoss\\sApplication\\sServer\\sWrapper\\s+(.*)"
  PgsqlServRe := "PostgreSQL\\s+(.*)"
  PgSvStat := "postgres --single -D /usr/local/pgsql/data sv_stat".toList
  PgSvSub := "postgres --single -D /usr/local/pgsql/data sv_sub".toList
  PgSvStatShort := "psql sv_stat svadmin".toList
  PgSvSubShort := "psql sv_sub svadmin".toList
  StartDb := "start service database".toList
  StopDb := "stop service database".toList
  StartAppServ := "start service application-server".toList
  StopAppServ := "stop service application-server".toList
  SwitchUser := "sudo su -".toList
  SwitchUserPg := "su - pgsql".toList
  CntrlD := [Char.ofNat 4]
  PgErr := "\"postmaster.pid\" already exists".toList
  Quit := [Char.ofNat 92, Char.ofNat 113]

/-! ## Status parsing -/

/-- The record `SrpDbStatus`; the counts are `int64`. -/
structure SrpDbStatus where
  CmdResults : List Str := []
  OneHndrdMn : Int := 0
  FiveHndrMn : Int := 0
  OneBn : Int := 0
  OneFiveBn : Int := 0
  TwoBn : Int := 0
  DbError : Bool := false
deriving DecidableEq, Repr

/-- Embedding of `Service.GetSvAdmDbStatus`. -/
def GetSvAdmDbStatus : Prog (SrpDbStatus × GoError) := do
  let mut dbStatus : SrpDbStatus := {}
  let (out1, _) ← SendCmd SrpCmds.SvAdmDbStatus
  dbStatus := { dbStatus with CmdResults := dbStatus.CmdResults ++ [out1] }
  if contains out1 "Unable to connect to database".toList then
    dbStatus := { dbStatus with DbError := true }
    return (dbStatus, some "err: unable to connect to database".toList)
  let (out2, _) ← SendCmd SrpCmds.SvAdmDbTransStatus
  dbStatus := { dbStatus with CmdResults := dbStatus.CmdResults ++ [out2] }
  let hndrdMnRe := MustCompile "GreaterThan100Million:\\s(\\S+)"
  let fiveHndrdMnRe := MustCompile "GreaterThan500Million:\\s(\\S+)"
  let oneBnRe := MustCompile "GreaterThan1Billion\\s+:\\s(\\S+)"
  let one5BnRe := MustCompile "GreaterThan1.5Billion:\\s(\\S+)"
  let twoBnRe := MustCompile "GreaterThan2Billion\\s+:\\s(\\S+)"
  let hndrdMnMatches := FindStringSubmatch hndrdMnRe out2
  let fiveHndrdMnMatches := FindStringSubmatch fiveHndrdMnRe out2
  let oneBnMatches := FindStringSubmatch oneBnRe out2
  let one5BnMatches := FindStringSubmatch one5BnRe out2
  let twoBnMatches := FindStringSubmatch twoBnRe out2
  let hndrdMn := (ParseInt (replace (← index hndrdMnMatches 1) ",".toList [])).1
  let fiveHndrdMn := (ParseInt (replace (← index fiveHndrdMnMatches 1) ",".toList [])).1
  let oneBn := (ParseInt (replace (← index oneBnMatches 1) ",".toList [])).1
  let onefiveBn := (ParseInt (replace (← index one5BnMatches 1) ",".toList [])).1
  let twoBn := (ParseInt (replace (← index twoBnMatches 1) ",".toList [])).1
  dbStatus := { dbStatus with OneHndrdMn := hndrdMn }
  dbStatus := { dbStatus with FiveHndrMn := fiveHndrdMn }
  dbStatus := { dbStatus with OneBn := oneBn }
  dbStatus := { dbStatus with OneFiveBn := onefiveBn }
  dbStatus := { dbStatus with TwoBn := twoBn }
  return (dbStatus, none)

/-- The record `DbServiceStatus`. -/
structure DbServiceStatus where
  JBossAppServer : Str := []
  JBossAppServerWrapper : Str := []
  PgSQL : Str := []
deriving DecidableEq, Repr

/-- Embedding of `Service.trimWS`: brackets removed, whitespace runs
collapsed. -/
def trimWS (text : Str) : Str :=
  let t := replace text "[".toList []
  let t := replace t "]".toList []
  ReplaceAllSpaces t

/-- Embedding of `Service.ShowDbServStatus`. -/
def ShowDbServStatus : Prog (DbServiceStatus × GoError) := do
  let (out, err) ← SendCmd SrpCmds.DbStatus
  let jbossRe := MustCompile SrpCmds.JbossServRe
  let jbossWrapperRe := MustCompile SrpCmds.JbossServWrapperRe
  let pgsqlRe := MustCompile SrpCmds.PgsqlServRe
  let jbossMatches := FindStringSubmatch jbossRe out
  let jbossWrapperMatches := FindStringSubmatch jbossWrapperRe out
  let pgsqlMatches := FindStringSubmatch pgsqlRe out
  let dbStatus : DbServiceStatus := {
    JBossAppServer := ← index (split (trimWS (← index jbossMatches 1)) " ".toList) 1
    JBossAppServerWrapper := ← index (split (trimWS (← index jbossWrapperMatches 1)) " ".toList) 1
    PgSQL := ← index (split (trimWS (← index pgsqlMatches 1)) " ".toList) 1
  }
  return (dbStatus, err)

/-! ## Service toggle and the vacuum procedures -/

/-- Embedding of `Service.ToggleDb`; each invocation uses one unit of fuel. -/
def ToggleDb : Nat → Bool → Prog Bool
  | 0, _ => outOfFuel
  | fuel + 1, doTurnOn => do
    let mut statCheck : Str := []
    let _ ← SendCmd SrpCmds.SvCLI
    if doTurnOn then
      statCheck := "online".toList
      let _ ← SendCmd SrpCmds.StartDb
      let _ ← SendCmd SrpCmds.StartAppServ
    else
      statCheck := "offline".toList
      let _ ← SendCmd SrpCmds.StopDb
      let _ ← SendCmd SrpCmds.StopAppServ
    let (dbStat, _) ← ShowDbServStatus
    if contains dbStat.JBossAppServer statCheck && contains dbStat.JBossAppServerWrapper statCheck &&
        contains dbStat.PgSQL statCheck then
      return true
    ToggleDb fuel doTurnOn

/-- The idiom `if out != "" { cmdResults = append(cmdResults, out) }`. -/
def appendNonEmpty (cmdResults : List Str) (out : Str) : List Str :=
  if out ≠ [] then cmdResults ++ [out] else cmdResults

/-- Embedding of `Service.LongVacuum`; `fuel` bounds each service toggle. -/
def LongVacuum (fuel : Nat) : Prog (List Str) := do
  let mut cmdResults : List Str := []
  let _ ← ToggleDb fuel false
  let _ ← SendCmd "exit".toList
  let (out, _) ← SendCmd SrpCmds.SwitchUser
  cmdResults := appendNonEmpty cmdResults out
  let (out, _) ← SendCmd SrpCmds.SwitchUserPg
  cmdResults := appendNonEmpty cmdResults out
  let (out, _) ← SendCmd SrpCmds.PgSvStat
  cmdResults := appendNonEmpty cmdResults out
  let (out, _) ← SendCmd "vacuum analyze".toList
  cmdResults := appendNonEmpty cmdResults out
  let _ ← SendCmd SrpCmds.CntrlD
  let (out, _) ← SendCmd SrpCmds.PgSvSub
  cmdResults := appendNonEmpty cmdResults out
  let (out, _) ← SendCmd "vacuum analyze".toList
  cmdResults := appendNonEmpty cmdResults out
  let _ ← SendCmd SrpCmds.CntrlD
  let _ ← SendCmd SrpCmds.CntrlD
  let (out, _) ← SendCmd SrpCmds.CntrlD
  cmdResults := appendNonEmpty cmdResults out
  let _ ← ToggleDb fuel true
  return cmdResults

/-- Embedding of `Service.ShortVacuum`; logging and the 500 ms sleep have no
effect on the session. -/
def ShortVacuum (fuel : Nat) : Prog (List Str) := do
  let mut cmdResults : List Str := []
  let (out, _) ← SendCmd SrpCmds.PgSvStatShort
  if contains out SrpCmds.PgErr then
    return ← LongVacuum fuel
  cmdResults := appendNonEmpty cmdResults out
  let _ ← SendCmd "vacuum analyze;".toList
  let (out, _) ← SendCmd SrpCmds.Quit
  cmdResults := appendNonEmpty cmdResults out
  let (out, _) ← SendCmd SrpCmds.PgSvSubShort
  if contains out SrpCmds.PgErr then
    return ← LongVacuum fuel
  cmdResults := appendNonEmpty cmdResults out
  let _ ← SendCmd "vacuum analyze;".toList
  let (out, _) ← SendCmd SrpCmds.Quit
  cmdResults := appendNonEmpty cmdResults out
  let _ ← ToggleDb fuel true
  return cmdResults

/-- Embedding of `Service.TriageSrp`. -/
def TriageSrp (fuel : Nat) : Prog (List Str) := do
  let (dbStatus, _) ← GetSvAdmDbStatus
  if dbStatus.DbError then
    return ← LongVacuum fuel
  if dbStatus.OneBn > 0 ∨ dbStatus.OneFiveBn > 0 ∨ dbStatus.TwoBn > 0 then
    return ← ShortVacuum fuel
  return []

/-! ## Definitions used to state the properties -/

/-- The pure part of `ShowDbServStatus`: the status read off a response, or
`none` where an index is out of range. -/
def parseServStatus (out : Str) : Option DbServiceStatus :=
  match (FindStringSubmatch (MustCompile SrpCmds.JbossServRe) out)[1]? with
  | none => none
  | some a =>
    match (split (trimWS a) " ".toList)[1]? with
    | none => none
    | some ja =>
      match (FindStringSubmatch (MustCompile SrpCmds.JbossServWrapperRe) out)[1]? with
      | none => none
      | some b =>
        match (split (trimWS b) " ".toList)[1]? with
        | none => none
        | some jb =>
          match (FindStringSubmatch (MustCompile SrpCmds.PgsqlServRe) out)[1]? with
          | none => none
          | some c =>
            match (split (trimWS c) " ".toList)[1]? with
            | none => none
            | some jc => some { JBossAppServer := ja, JBossAppServerWrapper := jb, PgSQL := jc }

/-- The pure part of `GetSvAdmDbStatus` after the second query: the five
counts read off the transaction report, or `none` where an index is out of
range. -/
def parseCounts (out2 : Str) : Option (Int × Int × Int × Int × Int) :=
  match (FindStringSubmatch (MustCompile "GreaterThan100Million:\\s(\\S+)") out2)[1]? with
  | none => none
  | some a =>
    match (FindStringSubmatch (MustCompile "GreaterThan500Million:\\s(\\S+)") out2)[1]? with
    | none => none
    | some b =>
      match (FindStringSubmatch (MustCompile "GreaterThan1Billion\\s+:\\s(\\S+)") out2)[1]? with
      | none => none
      | some c =>
        match (FindStringSubmatch (MustCompile "GreaterThan1.5Billion:\\s(\\S+)") out2)[1]? with
        | none => none
        | some d =>
          match (FindStringSubmatch (MustCompile "GreaterThan2Billion\\s+:\\s(\\S+)") out2)[1]? with
          | none => none
          | some e =>
            some ((ParseInt (replace a ",".toList [])).1, (ParseInt (replace b ",".toList [])).1,
              (ParseInt (replace c ",".toList [])).1, (ParseInt (replace d ",".toList [])).1,
              (ParseInt (replace e ",".toList [])).1)

/-- A piece of an expression that consumes exactly one character accepts
`c`. -/
def Re.fits : Re → Char → Bool
  | Re.chr a, c => c == a
  | Re.any, c => !isNewline c
  | Re.space, c => isSpace c
  | _, _ => false

/-- Every piece of `xs` consumes one character and `cs` is accepted piece by
piece. -/
def fitsAll : List Re → Str → Bool
  | [], [] => true
  | x :: xs, c :: cs => x.fits c && fitsAll xs cs
  | _, _ => false

/-- The text ends a word here: it is over, or whitespace follows. -/
def tokenEnd : Str → Bool
  | [] => true
  | c :: _ => isSpace c

/-- The text ends a line here: it is over, or a newline follows. -/
def lineEnd : Str → Bool
  | [] => true
  | c :: _ => isNewline c

/-- A count as the report prints it: decimal digits, possibly grouped by
commas, with at least one digit. -/
def isCount (num : Str) : Bool :=
  num.all (fun c => c.isDigit || c == ',') && num.any Char.isDigit

/-- The number a count denotes: its digits read in base ten, the commas
skipped. -/
def countValue (num : Str) : Nat :=
  (num.filter (fun c => c != ',')).foldl (fun n c => 10 * n + (c.toNat - '0'.toNat)) 0

/-- The first match of `re` in `text` starts at `lead ++ num`, and `num` ends
a word there. -/
def FirstField (re : List Re) (text lead num : Str) : Prop :=
  ∃ pre post, text = pre ++ lead ++ num ++ post ∧ tokenEnd post = true ∧
    ∀ i, i < pre.length → matchHere re (text.drop i) = none

/-- The first match of `re` in `text` is a field printed as label, colon, one
whitespace character and a count below `2 ^ 63`. -/
def TightField (re : List Re) (label : String) (text num : Str) : Prop :=
  ∃ w, isSpace w = true ∧ isCount num = true ∧ countValue num < 2 ^ 63 ∧
    FirstField re text (label.toList ++ [':', w]) num

/-- The first match of `re` in `text` is a field printed as label, one or
more whitespace characters, colon, one whitespace character and a count
below `2 ^ 63`. -/
def PaddedField (re : List Re) (label : String) (text num : Str) : Prop :=
  ∃ ws w, ws ≠ [] ∧ ws.all isSpace = true ∧ isSpace w = true ∧ isCount num = true ∧
    countValue num < 2 ^ 63 ∧ FirstField re text (label.toList ++ ws ++ [':', w]) num

/-- The first match of `re` in `text` is a line printed as label, one or more
whitespace characters, and the remainder `rest`, which starts with a visible
character and runs to the end of the line. -/
def FirstLine (re : List Re) (label : String) (text rest : Str) : Prop :=
  ∃ pre ws post, text = pre ++ label.toList ++ ws ++ rest ++ post ∧ ws ≠ [] ∧
    ws.all isSpace = true ∧ tokenEnd rest = false ∧ rest.all (fun c => !isNewline c) = true ∧
    lineEnd post = true ∧ ∀ i, i < pre.length → matchHere re (text.drop i) = none

/-- The three commands an invocation of `ToggleDb` sends before it polls. -/
def toggleSent (d : Bool) : List Str :=
  if d then
    ["svcli".toList, "start service database".toList, "start service application-server".toList]
  else
    ["svcli".toList, "stop service database".toList, "stop service application-server".toList]

/-- The four commands of one invocation of `ToggleDb`, in the order sent. -/
def toggleRound (d : Bool) : List Str := toggleSent d ++ ["show system services".toList]

/-- The word `ToggleDb` looks for in each state. -/
def statWord (d : Bool) : Str := if d then "online".toList else "offline".toList

/-- The first poll of `ToggleDb d` from `log` reads the expected word in all
three states. -/
def firstPollOk (d : Bool) (dev : Device) (log : List Str) : Bool :=
  match ShowDbServStatus dev (log ++ toggleSent d) with
  | .ret r _ =>
    contains r.1.JBossAppServer (statWord d) && contains r.1.JBossAppServerWrapper (statWord d) &&
      contains r.1.PgSQL (statWord d)
  | _ => false

/-- Output of the `i`-th command of `cmds` when they are sent one after
another from `log`. -/
def outputAt (dev : Device) (log : List Str) (cmds : List Str) (i : Nat) : Str :=
  (dev.reply (log ++ cmds.take i) (cmds.getD i [])).1

/-- The commands `LongVacuum` sends between its two service toggles. -/
def longCmds : List Str :=
  ["exit".toList, "sudo su -".toList, "su - pgsql".toList,
    "postgres --single -D /usr/local/pgsql/data sv_stat".toList, "vacuum analyze".toList,
    [Char.ofNat 4],
    "postgres --single -D /usr/local/pgsql/data sv_sub".toList, "vacuum analyze".toList,
    [Char.ofNat 4], [Char.ofNat 4], [Char.ofNat 4]]

/-- The commands between the two toggles as specification section 4.3 lists
them: one end-of-input after each vacuum, then three more. -/
def longCmdsSpec : List Str :=
  ["exit".toList, "sudo su -".toList, "su - pgsql".toList,
    "postgres --single -D /usr/local/pgsql/data sv_stat".toList, "vacuum analyze".toList,
    [Char.ofNat 4],
    "postgres --single -D /usr/local/pgsql/data sv_sub".toList, "vacuum analyze".toList,
    [Char.ofNat 4],
    [Char.ofNat 4], [Char.ofNat 4], [Char.ofNat 4]]

/-- The outputs `LongVacuum` keeps, its commands sent from `log`. -/
def longKept (dev : Device) (log : List Str) : List Str :=
  ([1, 2, 3, 4, 6, 7, 10].map (outputAt dev log longCmds)).filter (fun o => o ≠ [])

/-- The commands `ShortVacuum` sends before its final service toggle. -/
def shortCmds : List Str :=
  ["psql sv_stat svadmin".toList, "vacuum analyze;".toList, [Char.ofNat 92, 'q'],
    "psql sv_sub svadmin".toList, "vacuum analyze;".toList, [Char.ofNat 92, 'q']]

/-- The outputs `ShortVacuum` keeps: those of the two shell entries and the
two quits. -/
def shortKept (dev : Device) (log : List Str) : List Str :=
  ([0, 2, 3, 5].map (outputAt dev log shortCmds)).filter (fun o => o ≠ [])

/-- The non-empty outputs of all six commands of `ShortVacuum`. -/
def shortOutputs (dev : Device) (log : List Str) : List Str :=
  ([0, 1, 2, 3, 4, 5].map (outputAt dev log shortCmds)).filter (fun o => o ≠ [])

/-- The reference decision of specification section 4.4 over a status. -/
def triageReference (fuel : Nat) (st : SrpDbStatus) : Prog (List Str) :=
  if st.DbError then LongVacuum fuel
  else if 0 < st.OneBn ∨ 0 < st.OneFiveBn ∨ 0 < st.TwoBn then ShortVacuum fuel
  else pure []

/-- Command `a` is sent before command `b`: both occur and the first `a`
comes before the first `b`. -/
def issuedBefore (a b : Str) (log : List Str) : Prop :=
  a ∈ log ∧ b ∈ log ∧ log.indexOf a < log.indexOf b

instance (a b : Str) (log : List Str) : Decidable (issuedBefore a b log) := by
  unfold issuedBefore
  infer_instance

/-! ## Sample devices -/

/-- A service listing in which every subsystem reports `w`. -/
def sampleListing (w : String) : Str :=
  ("Service                           Admin  Oper\n" ++
   "JBoss Application Server          [up]   [" ++ w ++ "]\n" ++
   "JBoss Application Server Wrapper  [up]   [" ++ w ++ "]\n" ++
   "PostgreSQL                        [up]   [" ++ w ++ "]\n").toList

/-- A transaction report in the layout of the appliance. -/
def sampleReport : Str :=
  ("GreaterThan100Million: 12,345,678\n" ++
   "GreaterThan500Million: 4\n" ++
   "GreaterThan1Billion  : 0\n" ++
   "GreaterThan1.5Billion: 0\n" ++
   "GreaterThan2Billion  : 3,400\n").toList

/-- A device that answers the status query with `status`, the two shell
entries with `psqlStat` and `psqlSub`, the transaction query with `report`,
and lists its services as the last start or stop command left them. -/
def sampleDevice (status report psqlStat psqlSub : Str) : Device where
  reply hist cmd :=
    if cmd = SrpCmds.DbStatus then
      (if hist.reverse.find? (fun c => c = SrpCmds.StartDb ∨ c = SrpCmds.StopDb) = some SrpCmds.StartDb
        then sampleListing "online" else sampleListing "offline", none)
    else if cmd = SrpCmds.SvAdmDbStatus then (status, none)
    else if cmd = SrpCmds.SvAdmDbTransStatus then (report, none)
    else if cmd = SrpCmds.PgSvStatShort then (psqlStat, none)
    else if cmd = SrpCmds.PgSvSubShort then (psqlSub, none)
    else if cmd = "vacuum analyze;".toList then ("VACUUM".toList, none)
    else if cmd = SrpCmds.Quit then ([], none)
    else ("#".toList, none)

/-- An appliance whose database cannot be reached. -/
def downDevice : Device :=
  sampleDevice "Error: Unable to connect to database".toList [] [] []

/-- An appliance whose first shell entry finds a stale lock file. -/
def staleDevice : Device :=
  sampleDevice "Database status: ok".toList sampleReport
    "psql: FATAL: lock file \"postmaster.pid\" already exists".toList "psql (9.6)".toList

/-- An appliance whose second shell entry finds a stale lock file. -/
def staleSubDevice : Device :=
  sampleDevice "Database status: ok".toList sampleReport "psql (9.6)".toList
    "psql: FATAL: lock file \"postmaster.pid\" already exists".toList

/-- A transaction report with every colon directly after its label. -/
def tightReport : Str :=
  ("GreaterThan100Million: 1\n" ++
   "GreaterThan500Million: 2\n" ++
   "GreaterThan1Billion: 3\n" ++
   "GreaterThan1.5Billion: 4\n" ++
   "GreaterThan2Billion: 5\n").toList

/-- A transaction report with a space on both sides of every colon. -/
def spacedReport : Str :=
  ("GreaterThan100Million : 1\n" ++
   "GreaterThan500Million : 2\n" ++
   "GreaterThan1Billion : 3\n" ++
   "GreaterThan1.5Billion : 4\n" ++
   "GreaterThan2Billion : 3,400\n").toList

/-- A transaction report in the layout of the appliance whose last count is
`2 ^ 63`. -/
def hugeReport : Str :=
  ("GreaterThan100Million: 1\n" ++
   "GreaterThan500Million: 2\n" ++
   "GreaterThan1Billion  : 3\n" ++
   "GreaterThan1.5Billion: 4\n" ++
   "GreaterThan2Billion  : 9,223,372,036,854,775,808\n").toList

/-- A transaction report that lacks the `GreaterThan1.5Billion` field. -/
def shortReport : Str :=
  ("GreaterThan100Million: 1\n" ++
   "GreaterThan500Million: 2\n" ++
   "GreaterThan1Billion  : 3\n" ++
   "GreaterThan2Billion  : 5\n").toList

/-- An appliance that answers the transaction query with `report`. -/
def reportDevice (report : Str) : Device :=
  sampleDevice "Database status: ok".toList report "psql (9.6)".toList "psql (9.6)".toList

/-- A service listing with one line for each subsystem, the wrapper first. -/
def wrapperFirstListing : Str :=
  ("JBoss Application Server Wrapper  [up]    [online]\n" ++
   "JBoss Application Server          [down]  [offline]\n" ++
   "PostgreSQL                        [up]    [online]\n").toList

/-- An appliance that lists the wrapper before the application server. -/
def wrapperFirstDevice : Device where
  reply _ _ := (wrapperFirstListing, none)

/-- A healthy appliance. -/
def healthyDevice : Device :=
  sampleDevice "Database status: ok".toList sampleReport "psql (9.6)".toList "psql (9.6)".toList

set_option maxRecDepth 100000

/-! ## Running a program -/

theorem bind_run {α β : Type} (m : Prog α) (f : α → Prog β) (dev : Device) (log : List Str) :
    (m >>= f) dev log = match m dev log with
      | .ret a l => f a dev l
      | .panic l => .panic l
      | .timeout l => .timeout l := rfl

theorem pure_run {α : Type} (a : α) (dev : Device) (log : List Str) :
    (pure a : Prog α) dev log = .ret a log := rfl

theorem pure_bind_prog {α β : Type} (a : α) (f : α → Prog β) : (pure a >>= f) = f a := rfl

theorem SendCmd_run (cmd : Str) (dev : Device) (log : List Str) :
    SendCmd cmd dev log = .ret (dev.reply log cmd) (log ++ [cmd]) := rfl

theorem SendCmd_bind {β : Type} (cmd : Str) (f : Str × GoError → Prog β) (dev : Device)
    (log : List Str) :
    (SendCmd cmd >>= f) dev log = f (dev.reply log cmd) dev (log ++ [cmd]) := rfl

theorem index_bind {α β : Type} (xs : List α) (i : Nat) (f : α → Prog β) (dev : Device)
    (log : List Str) :
    (index xs i >>= f) dev log = match xs[i]? with
      | some x => f x dev log
      | none => .panic log := by
  show Prog.bind (index xs i) f dev log = _
  unfold Prog.bind index
  cases xs[i]? <;> rfl

theorem ite_run {α : Type} (c : Prop) [Decidable c] (p q : Prog α) (dev : Device)
    (log : List Str) :
    (if c then p else q) dev log = if c then p dev log else q dev log := by
  split <;> rfl

/-! ## The two status queries -/

theorem ShowDbServStatus_run (dev : Device) (log : List Str) :
    ShowDbServStatus dev log =
      match parseServStatus (dev.reply log SrpCmds.DbStatus).1 with
      | some st => .ret (st, (dev.reply log SrpCmds.DbStatus).2) (log ++ [SrpCmds.DbStatus])
      | none => .panic (log ++ [SrpCmds.DbStatus]) := by
  unfold ShowDbServStatus parseServStatus
  simp only [SendCmd_bind, index_bind, pure_run]
  rcases (FindStringSubmatch (MustCompile SrpCmds.JbossServRe)
    (dev.reply log SrpCmds.DbStatus).1)[1]? with _ | a
  · rfl
  simp only []
  rcases (split (trimWS a) " ".toList)[1]? with _ | ja
  · rfl
  simp only []
  rcases (FindStringSubmatch (MustCompile SrpCmds.JbossServWrapperRe)
    (dev.reply log SrpCmds.DbStatus).1)[1]? with _ | b
  · rfl
  simp only []
  rcases (split (trimWS b) " ".toList)[1]? with _ | jb
  · rfl
  simp only []
  rcases (FindStringSubmatch (MustCompile SrpCmds.PgsqlServRe)
    (dev.reply log SrpCmds.DbStatus).1)[1]? with _ | c
  · rfl
  simp only []
  rcases (split (trimWS c) " ".toList)[1]? with _ | jc
  · rfl
  rfl

theorem GetSvAdmDbStatus_run (dev : Device) (log : List Str) :
    GetSvAdmDbStatus dev log =
      if contains (dev.reply log SrpCmds.SvAdmDbStatus).1 "Unable to connect to database".toList then
        .ret ({ CmdResults := [(dev.reply log SrpCmds.SvAdmDbStatus).1], DbError := true },
          some "err: unable to connect to database".toList) (log ++ [SrpCmds.SvAdmDbStatus])
      else
        match parseCounts
          (dev.reply (log ++ [SrpCmds.SvAdmDbStatus]) SrpCmds.SvAdmDbTransStatus).1 with
        | some n =>
          .ret ({ CmdResults := [(dev.reply log SrpCmds.SvAdmDbStatus).1,
                    (dev.reply (log ++ [SrpCmds.SvAdmDbStatus]) SrpCmds.SvAdmDbTransStatus).1],
                  OneHndrdMn := n.1, FiveHndrMn := n.2.1, OneBn := n.2.2.1, OneFiveBn := n.2.2.2.1,
                  TwoBn := n.2.2.2.2 }, none)
            (log ++ [SrpCmds.SvAdmDbStatus, SrpCmds.SvAdmDbTransStatus])
        | none => .panic (log ++ [SrpCmds.SvAdmDbStatus, SrpCmds.SvAdmDbTransStatus]) := by
  unfold GetSvAdmDbStatus parseCounts
  simp only [SendCmd_bind, ite_run, pure_run, pure_bind_prog]
  split
  · rfl
  simp only [SendCmd_bind, index_bind, pure_run, List.append_assoc, List.cons_append,
    List.nil_append]
  generalize (dev.reply (log ++ [SrpCmds.SvAdmDbStatus]) SrpCmds.SvAdmDbTransStatus).1 = out2
  rcases (FindStringSubmatch (MustCompile "GreaterThan100Million:\\s(\\S+)") out2)[1]? with _ | a
  · rfl
  simp only []
  rcases (FindStringSubmatch (MustCompile "GreaterThan500Million:\\s(\\S+)") out2)[1]? with _ | b
  · rfl
  simp only []
  rcases (FindStringSubmatch (MustCompile "GreaterThan1Billion\\s+:\\s(\\S+)") out2)[1]? with _ | c
  · rfl
  simp only []
  rcases (FindStringSubmatch (MustCompile "GreaterThan1.5Billion:\\s(\\S+)") out2)[1]? with _ | d
  · rfl
  simp only []
  rcases (FindStringSubmatch (MustCompile "GreaterThan2Billion\\s+:\\s(\\S+)") out2)[1]? with _ | e
  · rfl
  rfl

/-! ## The service toggle -/

theorem ToggleDb_succ (n : Nat) (d : Bool) (dev : Device) (log : List Str) :
    ToggleDb (n + 1) d dev log =
      match ShowDbServStatus dev (log ++ toggleSent d) with
      | .ret r l =>
        if contains r.1.JBossAppServer (statWord d) && contains r.1.JBossAppServerWrapper (statWord d) &&
            contains r.1.PgSQL (statWord d) then .ret true l
        else ToggleDb n d dev l
      | .panic l => .panic l
      | .timeout l => .timeout l := by
  cases d <;>
    simp only [ToggleDb, SendCmd_bind, pure_run, toggleSent, statWord, Bool.false_eq_true, if_false,
      if_true, pure_bind_prog, bind_run, SendCmd_run, ite_run, List.take, List.append_assoc,
      List.cons_append, List.nil_append, SrpCmds] <;>
    generalize ShowDbServStatus dev _ = r <;>
    rcases r with ⟨⟨st, e⟩, l⟩ | l | l <;> rfl

theorem toggle_log (d : Bool) (log : List Str) :
    log ++ toggleSent d ++ [SrpCmds.DbStatus] = log ++ toggleRound d := by
  rw [List.append_assoc]
  rfl

theorem ToggleDb_step (n : Nat) (d : Bool) (dev : Device) (log : List Str) :
    ToggleDb (n + 1) d dev log =
      match parseServStatus (dev.reply (log ++ toggleSent d) SrpCmds.DbStatus).1 with
      | some st =>
        if contains st.JBossAppServer (statWord d) && contains st.JBossAppServerWrapper (statWord d) &&
            contains st.PgSQL (statWord d) then .ret true (log ++ toggleRound d)
        else ToggleDb n d dev (log ++ toggleRound d)
      | none => .panic (log ++ toggleRound d) := by
  rw [ToggleDb_succ, ShowDbServStatus_run, toggle_log]
  rcases parseServStatus _ with _ | st <;> rfl

theorem ShowDbServStatus_ret_log {dev : Device} {log l : List Str} {r : DbServiceStatus × GoError}
    (h : ShowDbServStatus dev log = .ret r l) : l = log ++ [SrpCmds.DbStatus] := by
  rw [ShowDbServStatus_run] at h
  split at h
  · injection h with _ h2
    exact h2.symm
  · cases h

/-- A first poll that reads the expected word in all three states ends the
toggle at once. -/
theorem ToggleDb_first_poll (n : Nat) (d : Bool) (dev : Device) (log l : List Str)
    (r : DbServiceStatus × GoError)
    (hs : ShowDbServStatus dev (log ++ toggleSent d) = .ret r l)
    (hj : contains r.1.JBossAppServer (statWord d) = true)
    (hw : contains r.1.JBossAppServerWrapper (statWord d) = true)
    (hp : contains r.1.PgSQL (statWord d) = true) :
    ToggleDb (n + 1) d dev log = .ret true (log ++ toggleRound d) := by
  have hl := ShowDbServStatus_ret_log hs
  rw [ToggleDb_succ, hs]
  simp only [hj, hw, hp, Bool.and_self, if_true]
  rw [hl, toggle_log]

/-- Every invocation sends its four commands, whatever the outcome. -/
theorem ToggleDb_log (n : Nat) (d : Bool) (dev : Device) (log : List Str) :
    ∃ k, 1 ≤ k ∧ k ≤ n + 1 ∧
      (ToggleDb (n + 1) d dev log).log = log ++ (List.replicate k (toggleRound d)).flatten := by
  have one : ∀ l : List Str, l ++ (List.replicate 1 (toggleRound d)).flatten = l ++ toggleRound d := by
    intro l
    simp only [List.replicate, List.flatten, List.append_nil]
  induction n generalizing log with
  | zero =>
    refine ⟨1, le_refl _, le_refl _, ?_⟩
    rw [ToggleDb_step, one]
    rcases parseServStatus _ with _ | st
    · rfl
    · simp only []
      split <;> rfl
  | succ n ih =>
    rw [ToggleDb_step]
    rcases parseServStatus _ with _ | st
    · exact ⟨1, le_refl _, by omega, by rw [one]; rfl⟩
    · simp only []
      split
      · exact ⟨1, le_refl _, by omega, by rw [one]; rfl⟩
      · obtain ⟨k, hk1, hk2, hk⟩ := ih (log ++ toggleRound d)
        refine ⟨k + 1, by omega, by omega, ?_⟩
        rw [hk, List.replicate_succ, List.flatten, List.append_assoc]

/-! ## The vacuum procedures -/

theorem appendNonEmpty_eq (xs : List Str) (o : Str) :
    appendNonEmpty xs o = xs ++ [o].filter (fun o => o ≠ []) := by
  unfold appendNonEmpty
  by_cases h : o = [] <;> simp [h]

theorem LongVacuum_run (fuel : Nat) (dev : Device) (log : List Str) :
    LongVacuum fuel dev log =
      match ToggleDb fuel false dev log with
      | .ret _ l =>
        (match ToggleDb fuel true dev (l ++ longCmds) with
         | .ret _ l2 => .ret (longKept dev l) l2
         | .panic l2 => .panic l2
         | .timeout l2 => .timeout l2)
      | .panic l => .panic l
      | .timeout l => .timeout l := by
  unfold LongVacuum
  rw [bind_run]
  rcases ToggleDb fuel false dev log with ⟨b, l⟩ | l | l
  · simp only [SendCmd_bind, SendCmd_run, pure_run, bind_run, appendNonEmpty_eq, List.append_assoc,
      List.cons_append, List.nil_append, ← List.filter_append]
    simp only [longCmds, SrpCmds]
    generalize ToggleDb fuel true dev _ = r
    rcases r with ⟨b2, l2⟩ | l2 | l2
    · simp only []
      congr 1
    · rfl
    · rfl
  · rfl
  · rfl

theorem Res.match_id {α : Type} (r : Res α) :
    (match r with
      | .ret a l => Res.ret a l
      | .panic l => .panic l
      | .timeout l => .timeout l) = r := by
  cases r <;> rfl

theorem ShortVacuum_run (fuel : Nat) (dev : Device) (log : List Str) :
    ShortVacuum fuel dev log =
      if contains (outputAt dev log shortCmds 0) SrpCmds.PgErr then
        LongVacuum fuel dev (log ++ shortCmds.take 1)
      else if contains (outputAt dev log shortCmds 3) SrpCmds.PgErr then
        LongVacuum fuel dev (log ++ shortCmds.take 4)
      else
        match ToggleDb fuel true dev (log ++ shortCmds) with
        | .ret _ l => .ret (shortKept dev log) l
        | .panic l => .panic l
        | .timeout l => .timeout l := by
  unfold ShortVacuum
  simp only [SendCmd_bind, SendCmd_run, pure_run, bind_run, ite_run, appendNonEmpty_eq,
    List.append_assoc, List.cons_append, List.nil_append, ← List.filter_append, Res.match_id]
  have e0 : outputAt dev log shortCmds 0 = (dev.reply log SrpCmds.PgSvStatShort).1 := by
    simp only [outputAt, List.take, List.append_nil]
    rfl
  have e3 : outputAt dev log shortCmds 3 =
      (dev.reply (log ++ [SrpCmds.PgSvStatShort, "vacuum analyze;".toList, SrpCmds.Quit])
        SrpCmds.PgSvSubShort).1 := rfl
  rw [e0, e3]
  split
  · rfl
  split
  · rfl
  simp only [shortCmds, SrpCmds]
  generalize ToggleDb fuel true dev _ = r
  rcases r with ⟨b2, l2⟩ | l2 | l2
  · simp only [shortKept, outputAt, List.map, List.take, List.append_nil]
    rfl
  · rfl
  · rfl

theorem ToggleDb_of_firstPollOk (n : Nat) (d : Bool) (dev : Device) (log : List Str)
    (h : firstPollOk d dev log = true) :
    ToggleDb (n + 1) d dev log = .ret true (log ++ toggleRound d) := by
  unfold firstPollOk at h
  split at h
  · rename_i r l hs
    simp only [Bool.and_eq_true] at h
    exact ToggleDb_first_poll n d dev log l r hs h.1.1 h.1.2 h.2
  · cases h

/-! ## The claims -/

/-- C1: `TriageSrp` is the reference decision applied to the status that
`GetSvAdmDbStatus` returns: `LongVacuum` when `DbError` is set, whatever the
counts; otherwise `ShortVacuum` when one of `OneBn`, `OneFiveBn`, `TwoBn` is
positive; otherwise the empty list with no command after the two status
queries.  `OneHndrdMn` and `FiveHndrMn` play no part. -/
theorem TriageSrp_reference (fuel : Nat) (dev : Device) (log : List Str) :
    TriageSrp fuel dev log =
      (match GetSvAdmDbStatus dev log with
       | .ret r l => triageReference fuel r.1 dev l
       | .panic l => .panic l
       | .timeout l => .timeout l) ∧
    (∀ (st : SrpDbStatus) (l : List Str), st.DbError = true →
      triageReference fuel st dev l = LongVacuum fuel dev l) ∧
    (∀ (st : SrpDbStatus) (l : List Str), st.DbError = false →
      (0 < st.OneBn ∨ 0 < st.OneFiveBn ∨ 0 < st.TwoBn) →
      triageReference fuel st dev l = ShortVacuum fuel dev l) ∧
    (∀ (st : SrpDbStatus) (l : List Str), st.DbError = false →
      st.OneBn ≤ 0 → st.OneFiveBn ≤ 0 → st.TwoBn ≤ 0 →
      triageReference fuel st dev l = .ret [] l) ∧
    (∀ (st : SrpDbStatus) (a b : Int),
      triageReference fuel { st with OneHndrdMn := a, FiveHndrMn := b } = triageReference fuel st) ∧
    (∀ (r : SrpDbStatus × GoError) (l : List Str), GetSvAdmDbStatus dev log = .ret r l →
      r.1.DbError = true → TriageSrp fuel dev log = LongVacuum fuel dev l) ∧
    (∀ (r : SrpDbStatus × GoError) (l : List Str), GetSvAdmDbStatus dev log = .ret r l →
      r.1.DbError = false → (0 < r.1.OneBn ∨ 0 < r.1.OneFiveBn ∨ 0 < r.1.TwoBn) →
      TriageSrp fuel dev log = ShortVacuum fuel dev l) ∧
    (∀ (r : SrpDbStatus × GoError) (l : List Str), GetSvAdmDbStatus dev log = .ret r l →
      r.1.DbError = false → r.1.OneBn ≤ 0 → r.1.OneFiveBn ≤ 0 → r.1.TwoBn ≤ 0 →
      TriageSrp fuel dev log =
        .ret [] (log ++ ["show service database status".toList,
          "show service database transaction-id status".toList])) := by
  have main : TriageSrp fuel dev log =
      (match GetSvAdmDbStatus dev log with
       | .ret r l => triageReference fuel r.1 dev l
       | .panic l => .panic l
       | .timeout l => .timeout l) := by
    unfold TriageSrp triageReference
    rw [bind_run]
    rcases GetSvAdmDbStatus dev log with ⟨⟨st, e⟩, l⟩ | l | l
    · simp only [ite_run, pure_run, bind_run, Res.match_id, gt_iff_lt]
    · rfl
    · rfl
  have none_case : ∀ (st : SrpDbStatus) (l : List Str), st.DbError = false →
      st.OneBn ≤ 0 → st.OneFiveBn ≤ 0 → st.TwoBn ≤ 0 →
      triageReference fuel st dev l = .ret [] l := by
    intro st l h a b c
    have hn : ¬(0 < st.OneBn ∨ 0 < st.OneFiveBn ∨ 0 < st.TwoBn) := by omega
    unfold triageReference
    simp only [h, hn, Bool.false_eq_true, if_false]
    rfl
  have long_case : ∀ (st : SrpDbStatus) (l : List Str), st.DbError = true →
      triageReference fuel st dev l = LongVacuum fuel dev l := by
    intro st l h
    unfold triageReference
    simp only [h, if_true]
  have short_case : ∀ (st : SrpDbStatus) (l : List Str), st.DbError = false →
      (0 < st.OneBn ∨ 0 < st.OneFiveBn ∨ 0 < st.TwoBn) →
      triageReference fuel st dev l = ShortVacuum fuel dev l := by
    intro st l h hc
    unfold triageReference
    simp only [h, hc, Bool.false_eq_true, if_false, if_true]
  refine ⟨main, long_case, short_case, none_case, ?_, ?_, ?_, ?_⟩
  · intro st a b
    rfl
  · intro r l hg hd
    rw [main, hg]
    exact long_case r.1 l hd
  · intro r l hg hd hc
    rw [main, hg]
    exact short_case r.1 l hd hc
  · intro r l hg hd a b c
    rw [main, hg]
    simp only []
    rw [none_case r.1 l hd a b c]
    rw [GetSvAdmDbStatus_run] at hg
    split at hg
    · injection hg with hr _
      rw [← hr] at hd
      cases hd
    · split at hg
      · injection hg with _ hl
        rw [← hl]
        rfl
      · cases hg

/-- Witness for C1: the healthy sample appliance reports 3,400 ids above two
billion and gets the short vacuum; the unreachable one gets the long
vacuum. -/
theorem TriageSrp_reference_witness :
    TriageSrp 1 healthyDevice [] =
      ShortVacuum 1 healthyDevice ["show service database status".toList,
        "show service database transaction-id status".toList] ∧
    TriageSrp 1 downDevice [] = LongVacuum 1 downDevice ["show service database status".toList] :=
  ⟨(TriageSrp_reference 1 healthyDevice []).2.2.2.2.2.2.1
      ({ CmdResults := ["Database status: ok".toList, sampleReport],
         OneHndrdMn := 12345678, FiveHndrMn := 4, OneBn := 0, OneFiveBn := 0, TwoBn := 3400 }, none)
      _ (by decide) (by decide) (by decide),
    (TriageSrp_reference 1 downDevice []).2.2.2.2.2.1
      ({ CmdResults := ["Error: Unable to connect to database".toList], DbError := true },
        some "err: unable to connect to database".toList)
      _ (by decide) (by decide)⟩

/-- C2: when the answer to "show service database status" contains "Unable
to connect to database", `GetSvAdmDbStatus` returns at once: the status has
`DbError` set, all five counts zero and `CmdResults` holding that one answer,
the error is not nil, and that query is the only command sent. -/
theorem GetSvAdmDbStatus_unreachable (dev : Device) (log : List Str)
    (h : contains (dev.reply log "show service database status".toList).1
      "Unable to connect to database".toList = true) :
    GetSvAdmDbStatus dev log =
      .ret ({ CmdResults := [(dev.reply log "show service database status".toList).1],
              OneHndrdMn := 0, FiveHndrMn := 0, OneBn := 0, OneFiveBn := 0, TwoBn := 0,
              DbError := true },
            some "err: unable to connect to database".toList)
        (log ++ ["show service database status".toList]) := by
  rw [GetSvAdmDbStatus_run]
  have h2 : contains (dev.reply log SrpCmds.SvAdmDbStatus).1
      "Unable to connect to database".toList = true := h
  rw [if_pos h2]
  rfl

/-- Witness for C2 on the unreachable sample appliance. -/
theorem GetSvAdmDbStatus_unreachable_witness :
    contains (downDevice.reply [] "show service database status".toList).1
        "Unable to connect to database".toList = true ∧
      GetSvAdmDbStatus downDevice [] =
        .ret ({ CmdResults := ["Error: Unable to connect to database".toList], DbError := true },
              some "err: unable to connect to database".toList)
          ["show service database status".toList] :=
  ⟨by decide, GetSvAdmDbStatus_unreachable downDevice [] (by decide)⟩

/-- C6: when the answer to either shell entry contains the stale-lock marker,
`ShortVacuum` is from there on exactly `LongVacuum` run from the commands sent
so far (one command for the first target, four for the second): it sends
nothing more of its own and none of its outputs reach the result. -/
theorem ShortVacuum_escalates (fuel : Nat) (dev : Device) (log : List Str) :
    (contains (dev.reply log "psql sv_stat svadmin".toList).1
        "\"postmaster.pid\" already exists".toList = true →
      ShortVacuum fuel dev log = LongVacuum fuel dev (log ++ ["psql sv_stat svadmin".toList])) ∧
    (contains (dev.reply log "psql sv_stat svadmin".toList).1
        "\"postmaster.pid\" already exists".toList = false →
      contains (dev.reply (log ++ ["psql sv_stat svadmin".toList, "vacuum analyze;".toList,
          [Char.ofNat 92, 'q']]) "psql sv_sub svadmin".toList).1
        "\"postmaster.pid\" already exists".toList = true →
      ShortVacuum fuel dev log =
        LongVacuum fuel dev (log ++ ["psql sv_stat svadmin".toList, "vacuum analyze;".toList,
          [Char.ofNat 92, 'q'], "psql sv_sub svadmin".toList])) := by
  have e0 : outputAt dev log shortCmds 0 = (dev.reply log "psql sv_stat svadmin".toList).1 := by
    simp only [outputAt, List.take, List.append_nil]
    rfl
  have e3 : outputAt dev log shortCmds 3 =
      (dev.reply (log ++ ["psql sv_stat svadmin".toList, "vacuum analyze;".toList,
          [Char.ofNat 92, 'q']]) "psql sv_sub svadmin".toList).1 := rfl
  constructor
  · intro h
    have h2 : contains (outputAt dev log shortCmds 0) SrpCmds.PgErr = true := by
      rw [e0]
      exact h
    rw [ShortVacuum_run, if_pos h2]
    rfl
  · intro h h4
    have h2 : ¬ contains (outputAt dev log shortCmds 0) SrpCmds.PgErr = true := by
      rw [e0]
      intro hc
      have hc2 : contains (dev.reply log "psql sv_stat svadmin".toList).1
          "\"postmaster.pid\" already exists".toList = true := hc
      rw [h] at hc2
      cases hc2
    have h5 : contains (outputAt dev log shortCmds 3) SrpCmds.PgErr = true := by
      rw [e3]
      exact h4
    rw [ShortVacuum_run, if_neg h2, if_pos h5]
    rfl

/-- Witness for C6: the stale lock file shows on the first target of one
sample appliance and on the second target of another. -/
theorem ShortVacuum_escalates_witness :
    ShortVacuum 1 staleDevice [] = LongVacuum 1 staleDevice ["psql sv_stat svadmin".toList] ∧
    ShortVacuum 1 staleSubDevice [] =
      LongVacuum 1 staleSubDevice ["psql sv_stat svadmin".toList, "vacuum analyze;".toList,
        [Char.ofNat 92, 'q'], "psql sv_sub svadmin".toList] ∧
    (LongVacuum 1 staleSubDevice ["psql sv_stat svadmin".toList, "vacuum analyze;".toList,
        [Char.ofNat 92, 'q'], "psql sv_sub svadmin".toList]).log.length = 23 :=
  ⟨(ShortVacuum_escalates 1 staleDevice []).1 (by decide),
    (ShortVacuum_escalates 1 staleSubDevice []).2 (by decide) (by decide), by decide⟩

/-- C7: when the first listing read by `ToggleDb d` shows the expected word
("online" for `d = true`, "offline" for `d = false`) in all three states, the
call returns `true` on that poll, with fuel for a single invocation, having
sent exactly four commands; for `d = true` they are "svcli", "start service
database", "start service application-server", "show system services". -/
theorem ToggleDb_succeeds_on_first_poll (n : Nat) (d : Bool) (dev : Device) (log l : List Str)
    (r : DbServiceStatus × GoError)
    (hs : ShowDbServStatus dev (log ++ toggleSent d) = .ret r l)
    (hj : contains r.1.JBossAppServer (if d then "online".toList else "offline".toList) = true)
    (hw : contains r.1.JBossAppServerWrapper (if d then "online".toList else "offline".toList) = true)
    (hp : contains r.1.PgSQL (if d then "online".toList else "offline".toList) = true) :
    ToggleDb (n + 1) d dev log = .ret true (log ++ toggleRound d) ∧
    ToggleDb 1 d dev log = .ret true (log ++ toggleRound d) ∧
    (toggleRound d).length = 4 ∧
    toggleRound true = ["svcli".toList, "start service database".toList,
      "start service application-server".toList, "show system services".toList] :=
  ⟨ToggleDb_first_poll n d dev log l r hs hj hw hp, ToggleDb_first_poll 0 d dev log l r hs hj hw hp,
    by cases d <;> rfl, rfl⟩

/-- Witness for C7: starting the services of the healthy sample appliance. -/
theorem ToggleDb_succeeds_on_first_poll_witness :
    ToggleDb 1 true healthyDevice [] =
      .ret true ["svcli".toList, "start service database".toList,
        "start service application-server".toList, "show system services".toList] :=
  (ToggleDb_succeeds_on_first_poll 0 true healthyDevice []
    ["svcli".toList, "start service database".toList, "start service application-server".toList,
      "show system services".toList]
    ({ JBossAppServer := "online".toList, JBossAppServerWrapper := "online".toList,
       PgSQL := "online".toList }, none)
    (by decide) (by decide) (by decide) (by decide)).1

/-- C8 as stated fails: on the healthy sample appliance both "vacuum
analyze;" commands answer "VACUUM", a non-empty output of a command sent
before the final toggle, and the list `ShortVacuum` returns leaves it out. -/
theorem ShortVacuum_result_counterexample :
    contains (outputAt healthyDevice [] shortCmds 0) SrpCmds.PgErr = false ∧
    contains (outputAt healthyDevice [] shortCmds 3) SrpCmds.PgErr = false ∧
    ShortVacuum 1 healthyDevice [] =
      .ret ["psql (9.6)".toList, "psql (9.6)".toList] (shortCmds ++ toggleRound true) ∧
    shortOutputs healthyDevice [] =
      ["psql (9.6)".toList, "VACUUM".toList, "psql (9.6)".toList, "VACUUM".toList] ∧
    ShortVacuum 1 healthyDevice [] ≠
      .ret (shortOutputs healthyDevice []) (shortCmds ++ toggleRound true) := by
  decide

/-- C8, amended: when neither shell entry answers with the stale-lock marker,
`ShortVacuum` returns, as soon as its final toggle does, the non-empty outputs
of the two shell entries and the two quits, in the order sent; the outputs of
the two "vacuum analyze;" commands are not kept.  No element is empty, and a
toggle that succeeds on its first poll makes the call return. -/
theorem ShortVacuum_result (fuel : Nat) (dev : Device) (log : List Str)
    (h1 : contains (outputAt dev log shortCmds 0) "\"postmaster.pid\" already exists".toList = false)
    (h2 : contains (outputAt dev log shortCmds 3) "\"postmaster.pid\" already exists".toList = false) :
    ShortVacuum fuel dev log =
      (match ToggleDb fuel true dev (log ++ shortCmds) with
       | .ret _ l => .ret (shortKept dev log) l
       | .panic l => .panic l
       | .timeout l => .timeout l) ∧
    shortKept dev log =
      ([outputAt dev log shortCmds 0, outputAt dev log shortCmds 2, outputAt dev log shortCmds 3,
        outputAt dev log shortCmds 5]).filter (fun o => o ≠ []) ∧
    (∀ o ∈ shortKept dev log, o ≠ []) ∧
    (firstPollOk true dev (log ++ shortCmds) = true →
      ShortVacuum (fuel + 1) dev log =
        .ret (shortKept dev log) (log ++ shortCmds ++ toggleRound true)) := by
  have g1 : ¬ contains (outputAt dev log shortCmds 0) SrpCmds.PgErr = true := by
    intro hc
    have hc2 : contains (outputAt dev log shortCmds 0)
        "\"postmaster.pid\" already exists".toList = true := hc
    rw [h1] at hc2
    cases hc2
  have g2 : ¬ contains (outputAt dev log shortCmds 3) SrpCmds.PgErr = true := by
    intro hc
    have hc2 : contains (outputAt dev log shortCmds 3)
        "\"postmaster.pid\" already exists".toList = true := hc
    rw [h2] at hc2
    cases hc2
  refine ⟨?_, rfl, ?_, ?_⟩
  · rw [ShortVacuum_run, if_neg g1, if_neg g2]
  · intro o ho
    unfold shortKept at ho
    have := (List.mem_filter.mp ho).2
    simpa using this
  · intro hp
    rw [ShortVacuum_run, if_neg g1, if_neg g2, ToggleDb_of_firstPollOk fuel true dev _ hp]

/-- Witness for C8 amended, on the healthy sample appliance. -/
theorem ShortVacuum_result_witness :
    ShortVacuum 1 healthyDevice [] =
      .ret ["psql (9.6)".toList, "psql (9.6)".toList]
        (["psql sv_stat svadmin".toList, "vacuum analyze;".toList, [Char.ofNat 92, 'q'],
          "psql sv_sub svadmin".toList, "vacuum analyze;".toList, [Char.ofNat 92, 'q']] ++
          toggleRound true) :=
  (ShortVacuum_result 0 healthyDevice [] (by decide) (by decide)).2.2.2 (by decide)

/-- C9 as stated fails: on the healthy sample appliance both toggles succeed
on their first poll and `LongVacuum` sends eleven commands between them;
after the second "vacuum analyze" come three end-of-input signals in all, not
one and then three more. -/
theorem LongVacuum_commands_counterexample :
    firstPollOk false healthyDevice [] = true ∧
    firstPollOk true healthyDevice (toggleRound false ++ longCmds) = true ∧
    (LongVacuum 1 healthyDevice []).log = toggleRound false ++ longCmds ++ toggleRound true ∧
    (LongVacuum 1 healthyDevice []).log ≠ toggleRound false ++ longCmdsSpec ++ toggleRound true ∧
    longCmds.length = 11 ∧ longCmdsSpec.length = 12 := by
  decide

/-- C9, amended: when both toggles succeed on their first poll, `LongVacuum`
returns, and between the two toggles it sends exactly "exit", "sudo su -",
"su - pgsql", the single-user entry for sv_stat, "vacuum analyze", one
end-of-input, the single-user entry for sv_sub, "vacuum analyze", and then
three end-of-input signals in all. -/
theorem LongVacuum_commands (n : Nat) (dev : Device) (log : List Str)
    (h1 : firstPollOk false dev log = true)
    (h2 : firstPollOk true dev (log ++ toggleRound false ++ longCmds) = true) :
    LongVacuum (n + 1) dev log =
      .ret (longKept dev (log ++ toggleRound false))
        (log ++ toggleRound false ++
          ["exit".toList, "sudo su -".toList, "su - pgsql".toList,
            "postgres --single -D /usr/local/pgsql/data sv_stat".toList, "vacuum analyze".toList,
            [Char.ofNat 4],
            "postgres --single -D /usr/local/pgsql/data sv_sub".toList, "vacuum analyze".toList,
            [Char.ofNat 4], [Char.ofNat 4], [Char.ofNat 4]] ++
          toggleRound true) := by
  rw [LongVacuum_run, ToggleDb_of_firstPollOk n false dev log h1]
  simp only []
  rw [ToggleDb_of_firstPollOk n true dev _ h2]
  rfl

/-- Witness for C9 amended, on the healthy sample appliance. -/
theorem LongVacuum_commands_witness :
    (LongVacuum 1 healthyDevice []).log =
      toggleRound false ++
        ["exit".toList, "sudo su -".toList, "su - pgsql".toList,
          "postgres --single -D /usr/local/pgsql/data sv_stat".toList, "vacuum analyze".toList,
          [Char.ofNat 4],
          "postgres --single -D /usr/local/pgsql/data sv_sub".toList, "vacuum analyze".toList,
          [Char.ofNat 4], [Char.ofNat 4], [Char.ofNat 4]] ++
        toggleRound true :=
  congrArg Res.log (LongVacuum_commands 0 healthyDevice [] (by decide) (by decide))

/-- C10 as stated fails: `ToggleDb false` on the healthy sample appliance
sends "stop service database" first and "stop service application-server"
second. -/
theorem ToggleDb_stop_order_counterexample :
    (ToggleDb 1 false healthyDevice []).log =
      ["svcli".toList, "stop service database".toList, "stop service application-server".toList,
        "show system services".toList] ∧
    ¬ issuedBefore "stop service application-server".toList "stop service database".toList
      (ToggleDb 1 false healthyDevice []).log := by
  decide

/-- C10, amended: every invocation of `ToggleDb`, re-invocations included,
sends "svcli", then the database command, then the application-server
command, then "show system services": "stop service database" before "stop
service application-server" when stopping, "start service database" before
"start service application-server" when starting.  The order is the same in
both directions. -/
theorem ToggleDb_command_order (n : Nat) (d : Bool) (dev : Device) (log : List Str) :
    (∃ k, 1 ≤ k ∧ k ≤ n + 1 ∧
      (ToggleDb (n + 1) d dev log).log = log ++ (List.replicate k (toggleRound d)).flatten) ∧
    toggleRound false = ["svcli".toList, "stop service database".toList,
      "stop service application-server".toList, "show system services".toList] ∧
    toggleRound true = ["svcli".toList, "start service database".toList,
      "start service application-server".toList, "show system services".toList] ∧
    issuedBefore "stop service database".toList "stop service application-server".toList
      (toggleRound false) ∧
    issuedBefore "start service database".toList "start service application-server".toList
      (toggleRound true) :=
  ⟨ToggleDb_log n d dev log, rfl, rfl, by decide, by decide⟩

/-! ## Matching -/

theorem FindStringSubmatch_cases (re : List Re) (s : Str) :
    FindStringSubmatch re s = [] ∨ ∃ m c, FindStringSubmatch re s = [m, c] := by
  induction s with
  | nil =>
    unfold FindStringSubmatch
    rcases matchHere re [] with _ | r
    · exact Or.inl rfl
    · exact Or.inr ⟨r.1, r.2, rfl⟩
  | cons a s ih =>
    unfold FindStringSubmatch
    rcases matchHere re (a :: s) with _ | r
    · exact ih
    · exact Or.inr ⟨r.1, r.2, rfl⟩

theorem FindStringSubmatch_here (re : List Re) (s m c : Str)
    (h : matchHere re s = some (m, c)) : FindStringSubmatch re s = [m, c] := by
  cases s with
  | nil =>
    unfold FindStringSubmatch
    rw [h]
  | cons a s =>
    unfold FindStringSubmatch
    rw [h]

/-- The leftmost match wins: a match after a stretch without any. -/
theorem FindStringSubmatch_first (re : List Re) (pre s m c : Str)
    (h : matchHere re s = some (m, c))
    (hpre : ∀ i, i < pre.length → matchHere re ((pre ++ s).drop i) = none) :
    FindStringSubmatch re (pre ++ s) = [m, c] := by
  induction pre with
  | nil => exact FindStringSubmatch_here re s m c h
  | cons a pre ih =>
    have h0 : matchHere re (a :: (pre ++ s)) = none := hpre 0 (Nat.succ_pos _)
    have hs : FindStringSubmatch re (a :: (pre ++ s)) = FindStringSubmatch re (pre ++ s) := by
      conv_lhs => unfold FindStringSubmatch
      rw [h0]
    rw [List.cons_append, hs]
    apply ih
    intro i hi
    exact hpre (i + 1) (Nat.succ_lt_succ hi)

theorem matchHere_single (x : Re) (c : Char) (p : List Re) (s : Str) (h : x.fits c = true) :
    matchHere (x :: p) (c :: s) = (matchHere p s).map (fun r => (c :: r.1, r.2)) := by
  cases x with
  | chr a =>
    have hc : c = a := by simpa [Re.fits] using h
    simp only [matchHere, hc, if_true]
  | any =>
    have hc : isNewline c = false := by simpa [Re.fits] using h
    simp only [matchHere, hc, Bool.false_eq_true, if_false]
  | space =>
    have hc : isSpace c = true := by simpa [Re.fits] using h
    simp only [matchHere, hc, if_true]
  | spaces => cases h
  | capNonSpaces => cases h
  | capRest => cases h

theorem matchHere_fitsAll (xs : List Re) (cs : Str) (p : List Re) (s : Str)
    (h : fitsAll xs cs = true) :
    matchHere (xs ++ p) (cs ++ s) = (matchHere p s).map (fun r => (cs ++ r.1, r.2)) := by
  induction xs generalizing cs with
  | nil =>
    cases cs with
    | nil =>
      simp only [List.nil_append]
      cases matchHere p s <;> rfl
    | cons c cs => cases h
  | cons x xs ih =>
    cases cs with
    | nil => cases h
    | cons c cs =>
      simp only [fitsAll, Bool.and_eq_true] at h
      rw [List.cons_append, List.cons_append, matchHere_single x c _ _ h.1, ih cs h.2]
      cases matchHere p s <;> rfl

theorem takeWhile_append_stop {α : Type} (q : α → Bool) (a b : List α)
    (ha : a.all q = true) (hb : b.head?.all (fun x => !q x) = true) :
    (a ++ b).takeWhile q = a ∧ (a ++ b).dropWhile q = b := by
  induction a with
  | nil =>
    cases b with
    | nil => exact ⟨rfl, rfl⟩
    | cons x b =>
      have hx : q x = false := by simpa using hb
      simp [List.takeWhile, List.dropWhile, hx]
  | cons x a ih =>
    simp only [List.all_cons, Bool.and_eq_true] at ha
    have := ih ha.2
    simp [List.takeWhile, List.dropWhile, ha.1, this.1, this.2]

theorem matchHere_capNonSpaces (num post : Str) (hne : num ≠ [])
    (hnum : num.all (fun c => !isSpace c) = true) (hpost : tokenEnd post = true) :
    matchHere [Re.capNonSpaces] (num ++ post) = some (num, num) := by
  have hb : post.head?.all (fun x => !(fun c => !isSpace c) x) = true := by
    cases post with
    | nil => rfl
    | cons x post => simpa [tokenEnd] using hpost
  obtain ⟨h1, h2⟩ := takeWhile_append_stop (fun c => !isSpace c) num post hnum hb
  simp only [matchHere, h1, h2, hne, if_false, Option.map, List.append_nil]

theorem matchHere_capRest (rest post : Str)
    (hrest : rest.all (fun c => !isNewline c) = true) (hpost : lineEnd post = true) :
    matchHere [Re.capRest] (rest ++ post) = some (rest, rest) := by
  have hb : post.head?.all (fun x => !(fun c => !isNewline c) x) = true := by
    cases post with
    | nil => rfl
    | cons x post => simpa [lineEnd] using hpost
  obtain ⟨h1, h2⟩ := takeWhile_append_stop (fun c => !isNewline c) rest post hrest hb
  simp only [matchHere, h1, h2, Option.map, List.append_nil]

theorem matchHere_spaces (p : List Re) (ws s : Str) (hne : ws ≠ [])
    (hws : ws.all isSpace = true) (hs : s.head?.all (fun x => !isSpace x) = true) :
    matchHere (Re.spaces :: p) (ws ++ s) = (matchHere p s).map (fun r => (ws ++ r.1, r.2)) := by
  obtain ⟨h1, h2⟩ := takeWhile_append_stop isSpace ws s hws hs
  simp only [matchHere, h1, h2, hne, if_false]

/-! ## Counts -/

theorem digit_bounds (c : Char) (h : c.isDigit = true) : 48 ≤ c.toNat ∧ c.toNat ≤ 57 := by
  simp only [Char.isDigit, Bool.and_eq_true, decide_eq_true_eq, ge_iff_le] at h
  have h1 : (48 : UInt32).toNat ≤ c.val.toNat := h.1
  have h2 : c.val.toNat ≤ (57 : UInt32).toNat := h.2
  exact ⟨h1, h2⟩

theorem digit_not_space (c : Char) (h : c.isDigit = true) : isSpace c = false := by
  by_contra hs
  simp only [Bool.not_eq_false, isSpace, Bool.or_eq_true, beq_iff_eq] at hs
  rcases hs with (((hs | hs) | hs) | hs) | hs <;> rw [hs] at h <;> revert h <;> decide

theorem isCount_visible (num : Str) (h : isCount num = true) :
    num ≠ [] ∧ num.all (fun c => !isSpace c) = true := by
  simp only [isCount, Bool.and_eq_true, List.all_eq_true, List.any_eq_true, Bool.or_eq_true,
    beq_iff_eq] at h
  obtain ⟨hall, d, hd, _⟩ := h
  refine ⟨List.ne_nil_of_mem hd, ?_⟩
  rw [List.all_eq_true]
  intro c hc
  rcases hall c hc with hdig | hcomma
  · rw [digit_not_space c hdig]
    rfl
  · rw [hcomma]
    decide

theorem replace_comma (s : Str) : replace s ",".toList [] = s.filter (fun c => c != ',') := by
  unfold replace
  induction s with
  | nil => rfl
  | cons c s ih =>
    by_cases hc : c = ','
    · subst hc
      have : replaceGo ",".toList [] 0 (',' :: s) = replaceGo ",".toList [] 0 s := by
        conv_lhs => unfold replaceGo
        simp
      rw [this, ih]
      simp
    · have : replaceGo ",".toList [] 0 (c :: s) = c :: replaceGo ",".toList [] 0 s := by
        conv_lhs => unfold replaceGo
        have hc2 : ¬ (',' = c) := fun e => hc e.symm
        simp [hc2]
      rw [this, ih]
      simp [hc]

theorem foldl_digits_ge (ds : Str) (m : Nat) :
    m ≤ ds.foldl (fun n c => 10 * n + (c.toNat - '0'.toNat)) m := by
  induction ds generalizing m with
  | nil => exact le_refl _
  | cons c ds ih =>
    rw [List.foldl_cons]
    exact le_trans (by omega) (ih _)

theorem ParseUintLoop_digits (ds : Str) (n : Nat) (hd : ds.all Char.isDigit = true)
    (hv : ds.foldl (fun n c => 10 * n + (c.toNat - '0'.toNat)) n < 2 ^ 64) :
    ParseUintLoop n ds = (ds.foldl (fun n c => 10 * n + (c.toNat - '0'.toNat)) n, none) := by
  induction ds generalizing n with
  | nil => rfl
  | cons c ds ih =>
    simp only [List.all_cons, Bool.and_eq_true] at hd
    rw [List.foldl_cons] at hv ⊢
    have hb := digit_bounds c hd.1
    have h0 : '0'.toNat = 48 := rfl
    have h9 : '9'.toNat = 57 := rfl
    have hge := foldl_digits_ge ds (10 * n + (c.toNat - '0'.toNat))
    have hlt : 10 * n + (c.toNat - '0'.toNat) < 2 ^ 64 := lt_of_le_of_lt hge hv
    have hcond : '0'.toNat ≤ c.toNat ∧ c.toNat ≤ '9'.toNat := by
      rw [h0, h9]
      exact hb
    have hdig : (if '0'.toNat ≤ c.toNat ∧ c.toNat ≤ '9'.toNat then some (c.toNat - '0'.toNat)
        else if 'a'.toNat ≤ (c.toNat ||| 32) ∧ (c.toNat ||| 32) ≤ 'z'.toNat then
          some ((c.toNat ||| 32) - 'a'.toNat + 10)
        else none) = some (c.toNat - '0'.toNat) := if_pos hcond
    have hd10 : ¬ (c.toNat - '0'.toNat ≥ 10) := by omega
    have hcut : ¬ (n ≥ (2 ^ 64 - 1) / 10 + 1) := by
      norm_num
      norm_num at hlt
      omega
    have hm1 : n * 10 % 2 ^ 64 = 10 * n := by
      rw [Nat.mod_eq_of_lt] <;> omega
    have hm2 : (10 * n + (c.toNat - '0'.toNat)) % 2 ^ 64 = 10 * n + (c.toNat - '0'.toNat) :=
      Nat.mod_eq_of_lt hlt
    have hover : ¬ (10 * n + (c.toNat - '0'.toNat) < 10 * n ∨
        10 * n + (c.toNat - '0'.toNat) > 2 ^ 64 - 1) := by
      norm_num
      norm_num at hlt
      omega
    unfold ParseUintLoop
    simp only [hdig, hd10, hcut, if_false, hm1, hm2, hover]
    exact ih (10 * n + (c.toNat - '0'.toNat)) hd.2 hv

theorem ParseInt_digits (ds : Str) (hne : ds ≠ []) (hd : ds.all Char.isDigit = true)
    (hv : ds.foldl (fun n c => 10 * n + (c.toNat - '0'.toNat)) 0 < 2 ^ 63) :
    ParseInt ds = (Int.ofNat (ds.foldl (fun n c => 10 * n + (c.toNat - '0'.toNat)) 0), none) := by
  cases ds with
  | nil => exact absurd rfl hne
  | cons c t =>
    have hc : c.isDigit = true := by
      simp only [List.all_cons, Bool.and_eq_true] at hd
      exact hd.1
    have hplus : c ≠ '+' := by
      intro e
      rw [e] at hc
      revert hc
      decide
    have hminus : c ≠ '-' := by
      intro e
      rw [e] at hc
      revert hc
      decide
    have hu : ParseUint (c :: t) =
        ((c :: t).foldl (fun n c => 10 * n + (c.toNat - '0'.toNat)) 0, none) := by
      unfold ParseUint
      rw [if_neg (List.cons_ne_nil c t)]
      exact ParseUintLoop_digits (c :: t) 0 hd (lt_trans hv (by norm_num))
    have hbig : ¬ ((c :: t).foldl (fun n c => 10 * n + (c.toNat - '0'.toNat)) 0 ≥ 2 ^ 63) :=
      not_le.mpr hv
    have hneg : (c == '-') = false := by simpa using hminus
    unfold ParseInt
    simp only [hplus, hminus, or_self, if_false, hu, hneg, decide_False, Bool.false_and,
      Bool.false_eq_true, reduceCtorEq, hbig, Bool.not_false, Bool.and_false, Bool.true_and]
    rfl

theorem ParseInt_count (num : Str) (h : isCount num = true) (hv : countValue num < 2 ^ 63) :
    (ParseInt (replace num ",".toList [])).1 = (countValue num : Int) := by
  rw [replace_comma]
  simp only [isCount, Bool.and_eq_true, List.all_eq_true, List.any_eq_true, Bool.or_eq_true,
    beq_iff_eq] at h
  obtain ⟨hall, d, hd, hdig⟩ := h
  have hne : num.filter (fun c => c != ',') ≠ [] := by
    apply List.ne_nil_of_mem (a := d)
    rw [List.mem_filter]
    refine ⟨hd, ?_⟩
    have : d ≠ ',' := by
      intro e
      rw [e] at hdig
      revert hdig
      decide
    simpa using this
  have hdigs : (num.filter (fun c => c != ',')).all Char.isDigit = true := by
    rw [List.all_eq_true]
    intro c hc
    rw [List.mem_filter] at hc
    rcases hall c hc.1 with h1 | h1
    · exact h1
    · have := hc.2
      rw [h1] at this
      exact absurd this (by decide)
  rw [ParseInt_digits _ hne hdigs hv]
  rfl

/-! ## Fields and lines -/

theorem FirstField_find (re : List Re) (text lead num : Str) (h : FirstField re text lead num)
    (hm : ∀ post, tokenEnd post = true →
      matchHere re (lead ++ num ++ post) = some (lead ++ num, num)) :
    (FindStringSubmatch re text)[1]? = some num := by
  obtain ⟨pre, post, htext, hend, hpre⟩ := h
  have e : text = pre ++ (lead ++ num ++ post) := by
    rw [htext]
    simp only [List.append_assoc]
  rw [e] at hpre ⊢
  rw [FindStringSubmatch_first re pre _ _ _ (hm post hend) hpre]
  rfl

theorem TightField_find (re xs : List Re) (label : String) (text num : Str)
    (hre : re = xs ++ [Re.chr ':', Re.space, Re.capNonSpaces])
    (hfit : fitsAll xs label.toList = true) (h : TightField re label text num) :
    (FindStringSubmatch re text)[1]? = some num := by
  obtain ⟨w, hw, hcnt, _, hf⟩ := h
  apply FirstField_find re text _ num hf
  intro post hend
  obtain ⟨hne, hvis⟩ := isCount_visible num hcnt
  have e : label.toList ++ [':', w] ++ num ++ post = label.toList ++ (':' :: w :: (num ++ post)) := by
    simp only [List.append_assoc, List.cons_append, List.nil_append]
  rw [hre, e, matchHere_fitsAll xs label.toList _ _ hfit,
    matchHere_single (Re.chr ':') ':' _ _ (by decide), matchHere_single Re.space w _ _ hw,
    matchHere_capNonSpaces num post hne hvis hend]
  simp only [Option.map, List.append_assoc, List.cons_append, List.nil_append]

theorem PaddedField_find (re xs : List Re) (label : String) (text num : Str)
    (hre : re = xs ++ [Re.spaces, Re.chr ':', Re.space, Re.capNonSpaces])
    (hfit : fitsAll xs label.toList = true) (h : PaddedField re label text num) :
    (FindStringSubmatch re text)[1]? = some num := by
  obtain ⟨ws, w, hwne, hws, hw, hcnt, _, hf⟩ := h
  apply FirstField_find re text _ num hf
  intro post hend
  obtain ⟨hne, hvis⟩ := isCount_visible num hcnt
  have e : label.toList ++ ws ++ [':', w] ++ num ++ post =
      label.toList ++ (ws ++ (':' :: w :: (num ++ post))) := by
    simp only [List.append_assoc, List.cons_append, List.nil_append]
  rw [hre, e, matchHere_fitsAll xs label.toList _ _ hfit,
    matchHere_spaces _ ws (':' :: w :: (num ++ post)) hwne hws rfl,
    matchHere_single (Re.chr ':') ':' _ _ (by decide), matchHere_single Re.space w _ _ hw,
    matchHere_capNonSpaces num post hne hvis hend]
  simp only [Option.map, List.append_assoc, List.cons_append, List.nil_append]

theorem FirstLine_find (re xs : List Re) (label : String) (text rest : Str)
    (hre : re = xs ++ [Re.spaces, Re.capRest])
    (hfit : fitsAll xs label.toList = true) (h : FirstLine re label text rest) :
    (FindStringSubmatch re text)[1]? = some rest := by
  obtain ⟨pre, ws, post, htext, hwne, hws, hvis, hrest, hend, hpre⟩ := h
  have e : text = pre ++ (label.toList ++ (ws ++ (rest ++ post))) := by
    rw [htext]
    simp only [List.append_assoc]
  have hhead : (rest ++ post).head?.all (fun x => !isSpace x) = true := by
    cases rest with
    | nil => cases hvis
    | cons c rest => simpa [tokenEnd] using hvis
  have hm : matchHere re (label.toList ++ (ws ++ (rest ++ post))) =
      some (label.toList ++ (ws ++ rest), rest) := by
    rw [hre, matchHere_fitsAll xs label.toList _ _ hfit, matchHere_spaces _ ws _ hwne hws hhead,
      matchHere_capRest rest post hrest hend]
    rfl
  rw [e] at hpre ⊢
  rw [FindStringSubmatch_first re pre _ _ _ hm hpre]
  rfl

/-- C3 as stated fails.  A report with every colon directly after its label,
and one with a space on both sides of every colon (the layout of the example
"GreaterThan2Billion : 3,400"), each make `GetSvAdmDbStatus` panic: the
patterns want the colon directly after three labels and whitespace before it
after the other two.  And a count of `2 ^ 63` is stored as `2 ^ 63 - 1`. -/
theorem GetSvAdmDbStatus_counts_counterexample :
    GetSvAdmDbStatus (reportDevice tightReport) [] =
      .panic ["show service database status".toList,
        "show service database transaction-id status".toList] ∧
    GetSvAdmDbStatus (reportDevice spacedReport) [] =
      .panic ["show service database status".toList,
        "show service database transaction-id status".toList] ∧
    GetSvAdmDbStatus (reportDevice hugeReport) [] =
      .ret ({ CmdResults := ["Database status: ok".toList, hugeReport], OneHndrdMn := 1,
              FiveHndrMn := 2, OneBn := 3, OneFiveBn := 4, TwoBn := 9223372036854775807 }, none)
        ["show service database status".toList,
          "show service database transaction-id status".toList] ∧
    countValue "9,223,372,036,854,775,808".toList = 9223372036854775808 := by
  decide

/-- C3, amended: let the answer to the status query lack the unreachable
phrase and let the first match of each of the five patterns in the
transaction report be a field in the layout of the appliance: the label,
then a colon directly (GreaterThan100Million, GreaterThan500Million,
GreaterThan1.5Billion) or after one or more whitespace characters
(GreaterThan1Billion, GreaterThan2Billion), then one whitespace character and
a count of digits, possibly grouped by commas, that ends at whitespace or at
the end of the text and denotes a number below `2 ^ 63`.  Then
`GetSvAdmDbStatus` returns a nil error, `DbError = false`, both answers in
`CmdResults`, and the five fields equal to the numbers the counts denote with
their commas removed. -/
theorem GetSvAdmDbStatus_counts (dev : Device) (log : List Str) (n1 n2 n3 n4 n5 : Str)
    (h0 : contains (dev.reply log "show service database status".toList).1
      "Unable to connect to database".toList = false)
    (f1 : TightField (MustCompile "GreaterThan100Million:\\s(\\S+)") "GreaterThan100Million"
      (dev.reply (log ++ ["show service database status".toList])
        "show service database transaction-id status".toList).1 n1)
    (f2 : TightField (MustCompile "GreaterThan500Million:\\s(\\S+)") "GreaterThan500Million"
      (dev.reply (log ++ ["show service database status".toList])
        "show service database transaction-id status".toList).1 n2)
    (f3 : PaddedField (MustCompile "GreaterThan1Billion\\s+:\\s(\\S+)") "GreaterThan1Billion"
      (dev.reply (log ++ ["show service database status".toList])
        "show service database transaction-id status".toList).1 n3)
    (f4 : TightField (MustCompile "GreaterThan1.5Billion:\\s(\\S+)") "GreaterThan1.5Billion"
      (dev.reply (log ++ ["show service database status".toList])
        "show service database transaction-id status".toList).1 n4)
    (f5 : PaddedField (MustCompile "GreaterThan2Billion\\s+:\\s(\\S+)") "GreaterThan2Billion"
      (dev.reply (log ++ ["show service database status".toList])
        "show service database transaction-id status".toList).1 n5) :
    GetSvAdmDbStatus dev log =
      .ret ({ CmdResults := [(dev.reply log "show service database status".toList).1,
                (dev.reply (log ++ ["show service database status".toList])
                  "show service database transaction-id status".toList).1],
              OneHndrdMn := countValue n1, FiveHndrMn := countValue n2, OneBn := countValue n3,
              OneFiveBn := countValue n4, TwoBn := countValue n5, DbError := false }, none)
        (log ++ ["show service database status".toList,
          "show service database transaction-id status".toList]) := by
  have g0 : ¬ contains (dev.reply log SrpCmds.SvAdmDbStatus).1
      "Unable to connect to database".toList = true := by
    intro hc
    have hc2 : contains (dev.reply log "show service database status".toList).1
        "Unable to connect to database".toList = true := hc
    rw [h0] at hc2
    cases hc2
  have e1 := TightField_find _ (MustCompile "GreaterThan100Million") _ _ n1 (by decide) (by decide) f1
  have e2 := TightField_find _ (MustCompile "GreaterThan500Million") _ _ n2 (by decide) (by decide) f2
  have e3 := PaddedField_find _ (MustCompile "GreaterThan1Billion") _ _ n3 (by decide) (by decide) f3
  have e4 := TightField_find _ (MustCompile "GreaterThan1.5Billion") _ _ n4 (by decide) (by decide) f4
  have e5 := PaddedField_find _ (MustCompile "GreaterThan2Billion") _ _ n5 (by decide) (by decide) f5
  obtain ⟨_, _, c1, v1, _⟩ := f1
  obtain ⟨_, _, c2, v2, _⟩ := f2
  obtain ⟨_, _, _, _, _, c3, v3, _⟩ := f3
  obtain ⟨_, _, c4, v4, _⟩ := f4
  obtain ⟨_, _, _, _, _, c5, v5, _⟩ := f5
  have hp : parseCounts (dev.reply (log ++ [SrpCmds.SvAdmDbStatus]) SrpCmds.SvAdmDbTransStatus).1 =
      some ((countValue n1 : Int), (countValue n2 : Int), (countValue n3 : Int),
        (countValue n4 : Int), (countValue n5 : Int)) := by
    show parseCounts (dev.reply (log ++ ["show service database status".toList])
        "show service database transaction-id status".toList).1 = _
    unfold parseCounts
    rw [e1]
    simp only []
    rw [e2]
    simp only []
    rw [e3]
    simp only []
    rw [e4]
    simp only []
    rw [e5]
    simp only []
    rw [ParseInt_count n1 c1 v1, ParseInt_count n2 c2 v2, ParseInt_count n3 c3 v3,
      ParseInt_count n4 c4 v4, ParseInt_count n5 c5 v5]
  rw [GetSvAdmDbStatus_run, if_neg g0, hp]
  rfl

/-- Witness for C3 amended: the report of the healthy sample appliance. -/
theorem GetSvAdmDbStatus_counts_witness :
    GetSvAdmDbStatus healthyDevice [] =
      .ret ({ CmdResults := ["Database status: ok".toList, sampleReport],
              OneHndrdMn := 12345678, FiveHndrMn := 4, OneBn := 0, OneFiveBn := 0, TwoBn := 3400,
              DbError := false }, none)
        ["show service database status".toList,
          "show service database transaction-id status".toList] :=
  GetSvAdmDbStatus_counts healthyDevice [] "12,345,678".toList "4".toList "0".toList "0".toList
    "3,400".toList (by decide)
    ⟨' ', by decide, by decide, by decide, sampleReport.take 0, sampleReport.drop 33,
      by decide, by decide, by decide⟩
    ⟨' ', by decide, by decide, by decide, sampleReport.take 34, sampleReport.drop 58,
      by decide, by decide, by decide⟩
    ⟨"  ".toList, ' ', by decide, by decide, by decide, by decide, by decide,
      sampleReport.take 59, sampleReport.drop 83, by decide, by decide, by decide⟩
    ⟨' ', by decide, by decide, by decide, sampleReport.take 84, sampleReport.drop 108,
      by decide, by decide, by decide⟩
    ⟨"  ".toList, ' ', by decide, by decide, by decide, by decide, by decide,
      sampleReport.take 109, sampleReport.drop 137, by decide, by decide, by decide⟩

/-- C4: when the answer to the status query lacks the unreachable phrase and
one of the five patterns has no match in the transaction report,
`GetSvAdmDbStatus` returns nothing: after its two queries the call ends in
the run-time panic of indexing the missing match, so no status comes back and
no count is replaced by zero. -/
theorem GetSvAdmDbStatus_missing_field (dev : Device) (log : List Str)
    (h0 : contains (dev.reply log "show service database status".toList).1
      "Unable to connect to database".toList = false)
    (hm : FindStringSubmatch (MustCompile "GreaterThan100Million:\\s(\\S+)")
          (dev.reply (log ++ ["show service database status".toList])
            "show service database transaction-id status".toList).1 = [] ∨
        FindStringSubmatch (MustCompile "GreaterThan500Million:\\s(\\S+)")
          (dev.reply (log ++ ["show service database status".toList])
            "show service database transaction-id status".toList).1 = [] ∨
        FindStringSubmatch (MustCompile "GreaterThan1Billion\\s+:\\s(\\S+)")
          (dev.reply (log ++ ["show service database status".toList])
            "show service database transaction-id status".toList).1 = [] ∨
        FindStringSubmatch (MustCompile "GreaterThan1.5Billion:\\s(\\S+)")
          (dev.reply (log ++ ["show service database status".toList])
            "show service database transaction-id status".toList).1 = [] ∨
        FindStringSubmatch (MustCompile "GreaterThan2Billion\\s+:\\s(\\S+)")
          (dev.reply (log ++ ["show service database status".toList])
            "show service database transaction-id status".toList).1 = []) :
    GetSvAdmDbStatus dev log =
      .panic (log ++ ["show service database status".toList,
        "show service database transaction-id status".toList]) ∧
    ∀ (r : SrpDbStatus × GoError) (l : List Str), GetSvAdmDbStatus dev log ≠ .ret r l := by
  have g0 : ¬ contains (dev.reply log SrpCmds.SvAdmDbStatus).1
      "Unable to connect to database".toList = true := by
    intro hc
    have hc2 : contains (dev.reply log "show service database status".toList).1
        "Unable to connect to database".toList = true := hc
    rw [h0] at hc2
    cases hc2
  have hp : parseCounts (dev.reply (log ++ [SrpCmds.SvAdmDbStatus]) SrpCmds.SvAdmDbTransStatus).1 =
      none := by
    show parseCounts (dev.reply (log ++ ["show service database status".toList])
        "show service database transaction-id status".toList).1 = _
    generalize (dev.reply (log ++ ["show service database status".toList])
        "show service database transaction-id status".toList).1 = out2 at hm
    unfold parseCounts
    have k1 := FindStringSubmatch_cases (MustCompile "GreaterThan100Million:\\s(\\S+)") out2
    have k2 := FindStringSubmatch_cases (MustCompile "GreaterThan500Million:\\s(\\S+)") out2
    have k3 := FindStringSubmatch_cases (MustCompile "GreaterThan1Billion\\s+:\\s(\\S+)") out2
    have k4 := FindStringSubmatch_cases (MustCompile "GreaterThan1.5Billion:\\s(\\S+)") out2
    have k5 := FindStringSubmatch_cases (MustCompile "GreaterThan2Billion\\s+:\\s(\\S+)") out2
    generalize FindStringSubmatch (MustCompile "GreaterThan100Million:\\s(\\S+)") out2 = x1
      at hm k1 ⊢
    generalize FindStringSubmatch (MustCompile "GreaterThan500Million:\\s(\\S+)") out2 = x2
      at hm k2 ⊢
    generalize FindStringSubmatch (MustCompile "GreaterThan1Billion\\s+:\\s(\\S+)") out2 = x3
      at hm k3 ⊢
    generalize FindStringSubmatch (MustCompile "GreaterThan1.5Billion:\\s(\\S+)") out2 = x4
      at hm k4 ⊢
    generalize FindStringSubmatch (MustCompile "GreaterThan2Billion\\s+:\\s(\\S+)") out2 = x5
      at hm k5 ⊢
    rcases k1 with rfl | ⟨m1, c1, rfl⟩
    · rfl
    rcases k2 with rfl | ⟨m2, c2, rfl⟩
    · rfl
    rcases k3 with rfl | ⟨m3, c3, rfl⟩
    · rfl
    rcases k4 with rfl | ⟨m4, c4, rfl⟩
    · rfl
    rcases k5 with rfl | ⟨m5, c5, rfl⟩
    · rfl
    simp at hm
  have main : GetSvAdmDbStatus dev log =
      .panic (log ++ ["show service database status".toList,
        "show service database transaction-id status".toList]) := by
    rw [GetSvAdmDbStatus_run, if_neg g0, hp]
    rfl
  refine ⟨main, ?_⟩
  intro r l h
  rw [main] at h
  cases h

/-- Witness for C4: a report without the `GreaterThan1.5Billion` field. -/
theorem GetSvAdmDbStatus_missing_field_witness :
    GetSvAdmDbStatus (reportDevice shortReport) [] =
      .panic ["show service database status".toList,
        "show service database transaction-id status".toList] :=
  (GetSvAdmDbStatus_missing_field (reportDevice shortReport) [] (by decide)
    (Or.inr (Or.inr (Or.inr (Or.inl (by decide)))))).1

/-- C5 as stated fails when the wrapper line stands first: the pattern of
the application server also matches the wrapper line, so `JBossAppServer` is
read there ("up") and not on the application server's own line, whose second
token is "offline". -/
theorem ShowDbServStatus_fields_counterexample :
    ShowDbServStatus wrapperFirstDevice [] =
      .ret ({ JBossAppServer := "up".toList, JBossAppServerWrapper := "online".toList,
              PgSQL := "online".toList }, none) ["show system services".toList] ∧
    wrapperFirstListing =
      "JBoss Application Server Wrapper".toList ++ "  ".toList ++ "[up]    [online]".toList ++
        [Char.ofNat 10] ++
      "JBoss Application Server".toList ++ "          ".toList ++ "[down]  [offline]".toList ++
        [Char.ofNat 10] ++
      "PostgreSQL".toList ++ "                        ".toList ++ "[up]    [online]".toList ++
        [Char.ofNat 10] ∧
    (split (trimWS "[down]  [offline]".toList) " ".toList)[1]? = some "offline".toList := by
  decide

/-- C5, amended: let the first match of each subsystem's pattern in the
answer to "show system services" be that subsystem's own line (so the line of
the JBoss Application Server stands before the line of its Wrapper, which the
first pattern matches too): the label, whitespace, and a remainder that runs
to the end of the line.  When each remainder has a second token after
normalisation, `ShowDbServStatus` returns the three second tokens, each from
its own line. -/
theorem ShowDbServStatus_fields (dev : Device) (log : List Str) (rj rw rp tj tw tp : Str)
    (hj : FirstLine (MustCompile SrpCmds.JbossServRe) "JBoss Application Server"
      (dev.reply log "show system services".toList).1 rj)
    (hw : FirstLine (MustCompile SrpCmds.JbossServWrapperRe) "JBoss Application Server Wrapper"
      (dev.reply log "show system services".toList).1 rw)
    (hp : FirstLine (MustCompile SrpCmds.PgsqlServRe) "PostgreSQL"
      (dev.reply log "show system services".toList).1 rp)
    (htj : (split (trimWS rj) " ".toList)[1]? = some tj)
    (htw : (split (trimWS rw) " ".toList)[1]? = some tw)
    (htp : (split (trimWS rp) " ".toList)[1]? = some tp) :
    ShowDbServStatus dev log =
      .ret ({ JBossAppServer := tj, JBossAppServerWrapper := tw, PgSQL := tp },
        (dev.reply log "show system services".toList).2)
        (log ++ ["show system services".toList]) := by
  have e1 := FirstLine_find _ (MustCompile "JBoss\\sApplication\\sServer") _ _ rj
    (by decide) (by decide) hj
  have e2 := FirstLine_find _ (MustCompile "JBoss\\sApplication\\sServer\\sWrapper") _ _ rw
    (by decide) (by decide) hw
  have e3 := FirstLine_find _ (MustCompile "PostgreSQL") _ _ rp (by decide) (by decide) hp
  have hps : parseServStatus (dev.reply log SrpCmds.DbStatus).1 =
      some { JBossAppServer := tj, JBossAppServerWrapper := tw, PgSQL := tp } := by
    show parseServStatus (dev.reply log "show system services".toList).1 = _
    unfold parseServStatus
    rw [e1]
    simp only []
    rw [htj]
    simp only []
    rw [e2]
    simp only []
    rw [htw]
    simp only []
    rw [e3]
    simp only []
    rw [htp]
  rw [ShowDbServStatus_run, hps]
  rfl

/-- Witness for C5 amended: the listing of the healthy sample appliance. -/
theorem ShowDbServStatus_fields_witness :
    ShowDbServStatus healthyDevice [] =
      .ret ({ JBossAppServer := "offline".toList, JBossAppServerWrapper := "offline".toList,
              PgSQL := "offline".toList }, none) ["show system services".toList] :=
  ShowDbServStatus_fields healthyDevice [] "[up]   [offline]".toList "[up]   [offline]".toList
    "[up]   [offline]".toList "offline".toList "offline".toList "offline".toList
    ⟨(sampleListing "offline").take 46, List.replicate 10 ' ', (sampleListing "offline").drop 96,
      by decide, by decide, by decide, by decide, by decide, by decide, by decide⟩
    ⟨(sampleListing "offline").take 97, List.replicate 2 ' ', (sampleListing "offline").drop 147,
      by decide, by decide, by decide, by decide, by decide, by decide, by decide⟩
    ⟨(sampleListing "offline").take 148, List.replicate 24 ' ', (sampleListing "offline").drop 198,
      by decide, by decide, by decide, by decide, by decide, by decide, by decide⟩
    (by decide) (by decide) (by decide)

end Sandvine
